import Mathlib

/-!
# BlueMap camera controls (`BlueMapCore/src/main/webroot/js/libs/Controls.js`)

A shallow embedding of the `Controls` class.  JavaScript numbers are read as
elements of a linearly ordered field `α` (exact arithmetic: `ℚ` when a handler
is evaluated, `ℝ` when the transcendental library functions matter); rounding,
`NaN` and the infinities are outside the model, and a division by zero has the
field's value `0`.  The functions of the JavaScript `Math` object are collected
in `JSMath`, a parameter of every method that calls one of them.  Mutation of
`this` becomes explicit state passing on the record `Controls`.
-/

namespace BlueMap

/-- The members of JavaScript's `Math` object used by the controller. -/
structure JSMath (α : Type) where
  PI : α
  pow : α → α → α
  sin : α → α
  cos : α → α

/-- three.js `Vector2`. -/
structure Vector2 (α : Type) where
  x : α
  y : α

/-- three.js `Vector3`. -/
structure Vector3 (α : Type) where
  x : α
  y : α
  z : α

/-- three.js `Euler`; the controller only uses the order `YXZ`. -/
structure Euler (α : Type) where
  x : α
  y : α
  z : α

/-- three.js `MOUSE.LEFT`. -/
def MOUSE.LEFT : Nat := 0

/-- three.js `MOUSE.RIGHT`. -/
def MOUSE.RIGHT : Nat := 2

/-- `Controls.KEYS.LEFT`. -/
def KEYS.LEFT : Nat := 37

/-- `Controls.KEYS.UP`. -/
def KEYS.UP : Nat := 38

/-- `Controls.KEYS.RIGHT`. -/
def KEYS.RIGHT : Nat := 39

/-- `Controls.KEYS.DOWN`. -/
def KEYS.DOWN : Nat := 40

/-- `Controls.KEYS.ORBIT`. -/
def KEYS.ORBIT : Nat := MOUSE.RIGHT

/-- `Controls.KEYS.MOVE`. -/
def KEYS.MOVE : Nat := MOUSE.LEFT

/-- `Controls.STATES`: the three values `this.state` is ever assigned
(`NONE: -1`, `ORBIT: 0`, `MOVE: 1`). -/
inductive STATES where
  | NONE
  | ORBIT
  | MOVE
  deriving DecidableEq, Repr

/-- `settings.zoom`. -/
structure ZoomSettings (α : Type) where
  min : α
  max : α
  speed : α
  smooth : α

/-- `settings.move`. -/
structure MoveSettings (α : Type) where
  speed : α
  smooth : α
  smoothY : α

/-- `settings.tilt`. -/
structure TiltSettings (α : Type) where
  max : α
  speed : α
  smooth : α

/-- `settings.rotate`. -/
structure RotateSettings (α : Type) where
  speed : α
  smooth : α

/-- `this.settings`. -/
structure Settings (α : Type) where
  zoom : ZoomSettings α
  move : MoveSettings α
  tilt : TiltSettings α
  rotate : RotateSettings α

/-- A child of `heightScene`: its `position` and an identifier of its mesh. -/
structure SceneObject (α : Type) where
  position : Vector3 α
  mesh : Nat

/-- Outcome of `raycaster.intersectObjects`: an exception, or the heights
`point.y` of the intersections, nearest first. -/
inductive RayResult (α : Type) where
  | failure
  | hits (ys : List α)

/-- The scene the controller looks at: the children of `heightScene` and the
result of a ray cast straight down (`near = 1`, `far = 300`) from an origin
through a list of objects. -/
structure HeightScene (α : Type) where
  children : List (SceneObject α)
  intersectObjects : Vector3 α → List (SceneObject α) → RayResult α

/-- The argument of `setTileSize`: the extent of a tile along `x` and `z`. -/
structure TileSize (α : Type) where
  x : α
  z : α

/-- The mutable fields of a `Controls` instance, with the two properties of
its collaborators that it reads: `camera.position` and `element.clientHeight`. -/
structure Controls (α : Type) where
  settings : Settings α
  cameraPosition : Vector3 α
  clientHeight : α
  terrainHeight : α
  tileSize : Option (TileSize α)
  position : Vector3 α
  targetPosition : Vector3 α
  distance : α
  targetDistance : α
  direction : α
  targetDirection : α
  angle : α
  targetAngle : α
  mouse : Vector2 α
  lastMouse : Vector2 α
  deltaMouse : Vector2 α
  orbitRot : Euler α
  cameraPosDelta : Vector3 α
  moveDelta : Vector2 α
  touchStart : Vector2 α
  touchDelta : Vector2 α
  keyStates : Nat → Bool
  state : STATES
  mouseMoved : Bool
  touchTiltStart : α
  lastTouchRotation : α
  touchZoomStart : α

/-- DOM `wheel` event. -/
structure WheelEvent (α : Type) where
  deltaY : α

/-- DOM mouse event. -/
structure MouseEvent (α : Type) where
  clientX : α
  clientY : α
  button : Nat

/-- DOM keyboard event. -/
structure KeyboardEvent where
  keyCode : Nat

/-- Hammer.js gesture event. -/
structure HammerEvent (α : Type) where
  pointerType : String
  deltaX : α
  deltaY : α
  rotation : α
  scale : α
  center : Vector2 α

section Model

variable {α : Type} [LinearOrderedField α]

/-- Modelled from the spec: the constant `Vector2_ZERO` of `utils.js`, which is
not among the sources; the origin, about which the pan delta is rotated. -/
def Vector2_ZERO : Vector2 α := ⟨0, 0⟩

/-- three.js `Vector2.rotateAround(center, angle)`. -/
def Vector2.rotateAround (M : JSMath α) (v center : Vector2 α) (angle : α) : Vector2 α :=
  let c := M.cos angle
  let s := M.sin angle
  let x := v.x - center.x
  let y := v.y - center.y
  ⟨x * c - y * s + center.x, x * s + y * c + center.y⟩

/-- three.js `Vector3.applyEuler` for an Euler angle of order `YXZ`: the
rotation about Z, then about X, then about Y. -/
def Vector3.applyEuler (M : JSMath α) (v : Vector3 α) (e : Euler α) : Vector3 α :=
  let v1 : Vector3 α := ⟨v.x * M.cos e.z - v.y * M.sin e.z, v.x * M.sin e.z + v.y * M.cos e.z, v.z⟩
  let v2 : Vector3 α := ⟨v1.x, v1.y * M.cos e.x - v1.z * M.sin e.x, v1.y * M.sin e.x + v1.z * M.cos e.x⟩
  ⟨v2.x * M.cos e.y + v2.z * M.sin e.y, v2.y, v2.z * M.cos e.y - v2.x * M.sin e.y⟩

/-- The `settings` object built by the constructor. -/
def defaultSettings (M : JSMath α) : Settings α :=
  { zoom := { min := 10, max := 2000, speed := 1.5, smooth := 0.2 }
    move := { speed := 1.75, smooth := 0.3, smoothY := 0.075 }
    tilt := { max := M.PI / 2.1, speed := 1.5, smooth := 0.3 }
    rotate := { speed := 1.5, smooth := 0.3 } }

namespace Controls

/-- `resetPosition()`. -/
def resetPosition (s : Controls α) : Controls α :=
  { s with
    position := ⟨0, 0, 0⟩
    targetPosition := ⟨0, 0, 0⟩
    distance := 5000
    targetDistance := 1000
    direction := 0
    targetDirection := 0
    angle := 0
    targetAngle := 0 }

/-- `setTileSize(tileSize)`. -/
def setTileSize (s : Controls α) (tileSize : TileSize α) : Controls α :=
  { s with tileSize := some tileSize }

/-- The constructor, for an element of the given `clientHeight`.  The gesture
origins `touchTiltStart`, `lastTouchRotation` and `touchZoomStart`, which the
constructor leaves undefined until the first gesture starts, hold `0`. -/
def construct (M : JSMath α) (clientHeight : α) : Controls α :=
  resetPosition
    { settings := defaultSettings M
      cameraPosition := ⟨0, 1000, 0⟩
      clientHeight := clientHeight
      terrainHeight := 70
      tileSize := none
      position := ⟨0, 0, 0⟩
      targetPosition := ⟨0, 0, 0⟩
      distance := 0
      targetDistance := 0
      direction := 0
      targetDirection := 0
      angle := 0
      targetAngle := 0
      mouse := ⟨0, 0⟩
      lastMouse := ⟨0, 0⟩
      deltaMouse := ⟨0, 0⟩
      orbitRot := ⟨0, 0, 0⟩
      cameraPosDelta := ⟨0, 0, 0⟩
      moveDelta := ⟨0, 0⟩
      touchStart := ⟨0, 0⟩
      touchDelta := ⟨0, 0⟩
      keyStates := fun _ => false
      state := STATES.NONE
      mouseMoved := false
      touchTiltStart := 0
      lastTouchRotation := 0
      touchZoomStart := 0 }

/-- `onMouseWheel`. -/
def onMouseWheel (s : Controls α) (event : WheelEvent α) : Controls α :=
  let s :=
    if event.deltaY > 0 then { s with targetDistance := s.targetDistance * s.settings.zoom.speed }
    else if event.deltaY < 0 then { s with targetDistance := s.targetDistance / s.settings.zoom.speed }
    else s
  let s := if s.targetDistance < s.settings.zoom.min then { s with targetDistance := s.settings.zoom.min } else s
  if s.targetDistance > s.settings.zoom.max then { s with targetDistance := s.settings.zoom.max } else s

/-- `onMouseMove`. -/
def onMouseMove (s : Controls α) (event : MouseEvent α) : Controls α :=
  { s with mouse := ⟨event.clientX, event.clientY⟩ }

/-- `onMouseDown`. -/
def onMouseDown (s : Controls α) (event : MouseEvent α) : Controls α :=
  if s.state ≠ STATES.NONE then s
  else if event.button = KEYS.MOVE then { s with state := STATES.MOVE }
  else if event.button = KEYS.ORBIT then { s with state := STATES.ORBIT }
  else s

/-- `onMouseUp`. -/
def onMouseUp (s : Controls α) (event : MouseEvent α) : Controls α :=
  if s.state = STATES.NONE then s
  else if event.button = KEYS.MOVE then
    (if s.state = STATES.MOVE then { s with state := STATES.NONE } else s)
  else if event.button = KEYS.ORBIT then
    (if s.state = STATES.ORBIT then { s with state := STATES.NONE } else s)
  else s

/-- `onTouchDown`. -/
def onTouchDown (s : Controls α) (event : HammerEvent α) : Controls α :=
  if event.pointerType = "mouse" then s
  else
    { s with
      touchStart := ⟨s.targetPosition.x, s.targetPosition.z⟩
      state := STATES.MOVE }

/-- `onTouchMove`. -/
def onTouchMove (M : JSMath α) (s : Controls α) (event : HammerEvent α) : Controls α :=
  if event.pointerType = "mouse" then s
  else if s.state ≠ STATES.MOVE then s
  else
    let s := { s with touchDelta := ⟨event.deltaX, event.deltaY⟩ }
    if s.touchDelta.x ≠ 0 ∨ s.touchDelta.y ≠ 0 then
      let d := s.touchDelta.rotateAround M Vector2_ZERO (-s.direction)
      { s with
        touchDelta := d
        targetPosition :=
          ⟨s.touchStart.x - (d.x * s.distance / s.clientHeight * s.settings.move.speed),
           s.targetPosition.y,
           s.touchStart.y - (d.y * s.distance / s.clientHeight * s.settings.move.speed)⟩ }
    else s

/-- `onTouchUp`. -/
def onTouchUp (s : Controls α) (event : HammerEvent α) : Controls α :=
  if event.pointerType = "mouse" then s
  else { s with state := STATES.NONE }

/-- `onTouchTiltDown`. -/
def onTouchTiltDown (s : Controls α) (_event : HammerEvent α) : Controls α :=
  { s with touchTiltStart := s.targetAngle, state := STATES.ORBIT }

/-- `onTouchTiltMove`. -/
def onTouchTiltMove (M : JSMath α) (s : Controls α) (event : HammerEvent α) : Controls α :=
  if s.state ≠ STATES.ORBIT then s
  else { s with targetAngle := s.touchTiltStart - (event.deltaY / s.clientHeight * M.PI) }

/-- `onTouchTiltUp`. -/
def onTouchTiltUp (s : Controls α) (_event : HammerEvent α) : Controls α :=
  { s with state := STATES.NONE }

/-- `onTouchRotateDown`. -/
def onTouchRotateDown (s : Controls α) (event : HammerEvent α) : Controls α :=
  { s with lastTouchRotation := event.rotation, state := STATES.ORBIT }

/-- `onTouchRotateMove`. -/
def onTouchRotateMove (M : JSMath α) (s : Controls α) (event : HammerEvent α) : Controls α :=
  if s.state ≠ STATES.ORBIT then s
  else
    let delta := event.rotation - s.lastTouchRotation
    let s := { s with lastTouchRotation := event.rotation }
    let delta := if delta > 180 then delta - 360 else delta
    let delta := if delta < -180 then delta + 360 else delta
    { s with targetDirection := s.targetDirection + (delta * (M.PI / 180)) * 1.4 }

/-- `onTouchRotateUp`. -/
def onTouchRotateUp (s : Controls α) (_event : HammerEvent α) : Controls α :=
  { s with state := STATES.NONE }

/-- `onTouchZoomDown`. -/
def onTouchZoomDown (s : Controls α) (_event : HammerEvent α) : Controls α :=
  { s with touchZoomStart := s.targetDistance }

/-- `onTouchZoomMove`. -/
def onTouchZoomMove (s : Controls α) (event : HammerEvent α) : Controls α :=
  let s := { s with targetDistance := s.touchZoomStart / event.scale }
  let s := if s.targetDistance < s.settings.zoom.min then { s with targetDistance := s.settings.zoom.min } else s
  if s.targetDistance > s.settings.zoom.max then { s with targetDistance := s.settings.zoom.max } else s

/-- `onKeyDown`. -/
def onKeyDown (s : Controls α) (event : KeyboardEvent) : Controls α :=
  { s with keyStates := fun k => if k = event.keyCode then true else s.keyStates k }

/-- `onKeyUp`. -/
def onKeyUp (s : Controls α) (event : KeyboardEvent) : Controls α :=
  { s with keyStates := fun k => if k = event.keyCode then false else s.keyStates k }

/-- `onInfoClick`: the state is not touched; the second component is the
`pos` of the `bluemap-info-click` notification it triggers. -/
def onInfoClick (s : Controls α) (event : HammerEvent α) : Controls α × Vector2 α :=
  (s, event.center)

/-- The local function `between` of `updateHeights()`. -/
def between (n min max : α) : Bool :=
  decide (n ≥ min) && decide (n < max)

/-- The closure `inTile` of `updateHeights()`, for a defined `this.tileSize`. -/
def inTile (tileSize : TileSize α) (pos thisPos : Vector3 α) : Bool :=
  between pos.x (thisPos.x - tileSize.x) thisPos.x &&
    between pos.z (thisPos.z - tileSize.z) thisPos.z

/-- The closure `tileChildren` of `updateHeights()`.  With `this.tileSize`
undefined the filter callback throws at the first child (`none`); an empty
list of children is filtered without the callback being run. -/
def tileChildren (s : Controls α) (scene : HeightScene α) (targetPos : Vector3 α) :
    Option (List (SceneObject α)) :=
  match scene.children, s.tileSize with
  | [], _ => some []
  | _ :: _, none => none
  | c :: cs, some tileSize => some ((c :: cs).filter fun child => inTile tileSize child.position targetPos)

/-- The ray query at the target point (first `try` block of `updateHeights()`). -/
def targetQuery (scene : HeightScene α) (s : Controls α) : RayResult α :=
  match tileChildren s scene s.targetPosition with
  | none => RayResult.failure
  | some objs => scene.intersectObjects ⟨s.targetPosition.x, 300, s.targetPosition.z⟩ objs

/-- The ray query at the camera point (second `try` block of `updateHeights()`). -/
def cameraQuery (scene : HeightScene α) (s : Controls α) : RayResult α :=
  match tileChildren s scene s.cameraPosition with
  | none => RayResult.failure
  | some objs => scene.intersectObjects ⟨s.cameraPosition.x, 300, s.cameraPosition.z⟩ objs

/-- `updateHeights()`.  Each `try` block leaves `terrainHeight` as it is when
its query throws or finds nothing; the local `terrainHeight` follows the field
through the two blocks. -/
def updateHeights (scene : HeightScene α) (s : Controls α) : Controls α :=
  let terrainHeight : α :=
    match targetQuery scene s with
    | RayResult.hits (y :: _) => y
    | _ => s.terrainHeight
  let terrainHeight : α :=
    match cameraQuery scene s with
    | RayResult.hits (y :: _) => if y > terrainHeight then y else terrainHeight
    | _ => terrainHeight
  { s with terrainHeight := terrainHeight }

/-- `updateMouseMoves`.  The locals `deltaMouse`, `moveDelta` and
`targetPosition` follow the fields of the same name through the body; the
rotated `moveDelta` is only read by the assignment to `targetPosition`, the
field being zeroed in the last two lines. -/
def updateMouseMoves (M : JSMath α) (s : Controls α) : Controls α :=
  let deltaMouse : Vector2 α := ⟨s.lastMouse.x - s.mouse.x, s.lastMouse.y - s.mouse.y⟩
  let moveDelta : Vector2 α := s.moveDelta
  let moveDelta : Vector2 α :=
    if s.keyStates KEYS.UP then ⟨moveDelta.x, moveDelta.y - 20⟩ else moveDelta
  let moveDelta : Vector2 α :=
    if s.keyStates KEYS.DOWN then ⟨moveDelta.x, moveDelta.y + 20⟩ else moveDelta
  let moveDelta : Vector2 α :=
    if s.keyStates KEYS.LEFT then ⟨moveDelta.x - 20, moveDelta.y⟩ else moveDelta
  let moveDelta : Vector2 α :=
    if s.keyStates KEYS.RIGHT then ⟨moveDelta.x + 20, moveDelta.y⟩ else moveDelta
  if s.state = STATES.MOVE ∧ deltaMouse.x = 0 ∧ deltaMouse.y = 0 then
    { s with deltaMouse := deltaMouse, moveDelta := moveDelta }
  else
    let moveDelta : Vector2 α := if s.state = STATES.MOVE then deltaMouse else moveDelta
    let targetPosition : Vector3 α :=
      if moveDelta.x ≠ 0 ∨ moveDelta.y ≠ 0 then
        let moveDelta : Vector2 α := moveDelta.rotateAround M Vector2_ZERO (-s.direction)
        ⟨s.targetPosition.x + (moveDelta.x * s.distance / s.clientHeight * s.settings.move.speed),
         s.targetPosition.y,
         s.targetPosition.z + (moveDelta.y * s.distance / s.clientHeight * s.settings.move.speed)⟩
      else s.targetPosition
    let targetDirection : α :=
      if s.state = STATES.ORBIT then s.targetDirection + (deltaMouse.x / s.clientHeight * M.PI)
      else s.targetDirection
    let targetAngle : α :=
      if s.state = STATES.ORBIT then s.targetAngle + (deltaMouse.y / s.clientHeight * M.PI)
      else s.targetAngle
    { s with
      deltaMouse := deltaMouse
      targetPosition := targetPosition
      targetDirection := targetDirection
      targetAngle := targetAngle
      lastMouse := s.mouse
      moveDelta := ⟨0, 0⟩ }

/-- The bound `max` on the tilt angle computed in `update()` from the
(smoothed) distance `d`. -/
def maxPitch (M : JSMath α) (settings : Settings α) (d : α) : α :=
  min settings.tilt.max
    (settings.tilt.max -
      M.pow (((d - settings.zoom.min) / (settings.zoom.max - settings.zoom.min)) *
        M.pow settings.tilt.max 4) (1 / 4))

/-- `update()`: the new state and the returned flag `changed`.  The locals
named after a field follow that field through the body. -/
def update (M : JSMath α) (scene : HeightScene α) (s : Controls α) : Controls α × Bool :=
  let s : Controls α := updateMouseMoves M s
  let targetY : α := max s.targetPosition.y s.terrainHeight
  let position : Vector3 α :=
    ⟨s.position.x + (s.targetPosition.x - s.position.x) * s.settings.move.smooth,
     s.position.y + (targetY - s.position.y) * s.settings.move.smoothY,
     s.position.z + (s.targetPosition.z - s.position.z) * s.settings.move.smooth⟩
  let distance : α := s.distance + (s.targetDistance - s.distance) * s.settings.zoom.smooth
  let deltaDir : α := (s.targetDirection - s.direction) * s.settings.rotate.smooth
  let direction : α := s.direction + deltaDir
  let changed : Bool := decide (|deltaDir| > 0.001)
  let max : α := maxPitch M s.settings distance
  let targetAngle : α := if s.targetAngle > max then max else s.targetAngle
  let targetAngle : α := if targetAngle < 0.01 then 0.001 else targetAngle
  let deltaAngle : α := (targetAngle - s.angle) * s.settings.tilt.smooth
  let angle : α := s.angle + deltaAngle
  let changed : Bool := changed || decide (|deltaAngle| > 0.001)
  let last : α := s.cameraPosition.x + s.cameraPosition.y + s.cameraPosition.z
  let orbitRot : Euler α := ⟨angle, direction, 0⟩
  let cameraPosDelta : Vector3 α := Vector3.applyEuler M ⟨0, distance, 0⟩ orbitRot
  let cameraPosition : Vector3 α :=
    ⟨position.x + cameraPosDelta.x, position.y + cameraPosDelta.y, position.z + cameraPosDelta.z⟩
  let move : α := last - (cameraPosition.x + cameraPosition.y + cameraPosition.z)
  let changed : Bool := changed || decide (|move| > 0.001)
  let s : Controls α :=
    { s with
      position := position
      distance := distance
      direction := direction
      targetAngle := targetAngle
      angle := angle
      orbitRot := orbitRot
      cameraPosDelta := cameraPosDelta
      cameraPosition := cameraPosition }
  (if changed then updateHeights scene s else s, changed)

/-- The clamp of the specification: `x` raised to at least `lo`, then lowered
to at most `hi`. -/
def clamp (x lo hi : α) : α :=
  min (max x lo) hi

/-- A zoom input: a wheel event, the start of a pinch or a pinch move. -/
inductive ZoomInput (α : Type) where
  | wheel (event : WheelEvent α)
  | zoomDown (event : HammerEvent α)
  | zoomMove (event : HammerEvent α)

/-- The handler that a zoom input is dispatched to. -/
def ZoomInput.handle (s : Controls α) : ZoomInput α → Controls α
  | ZoomInput.wheel event => onMouseWheel s event
  | ZoomInput.zoomDown event => onTouchZoomDown s event
  | ZoomInput.zoomMove event => onTouchZoomMove s event

/-- Wheel events and pinch moves, the zoom inputs that write `targetDistance`. -/
def ZoomInput.writesDistance : ZoomInput α → Bool
  | ZoomInput.wheel _ => true
  | ZoomInput.zoomDown _ => false
  | ZoomInput.zoomMove _ => true

/-- The state after a sequence of zoom inputs, handled first to last. -/
def runZoom (s : Controls α) (inputs : List (ZoomInput α)) : Controls α :=
  inputs.foldl ZoomInput.handle s

/-- An input event, tagged with the handler the constructor registers for it. -/
inductive Input (α : Type) where
  | mouseMove (event : MouseEvent α)
  | mouseDown (event : MouseEvent α)
  | mouseUp (event : MouseEvent α)
  | mouseWheel (event : WheelEvent α)
  | keyDown (event : KeyboardEvent)
  | keyUp (event : KeyboardEvent)
  | touchDown (event : HammerEvent α)
  | touchMove (event : HammerEvent α)
  | touchUp (event : HammerEvent α)
  | touchTiltDown (event : HammerEvent α)
  | touchTiltMove (event : HammerEvent α)
  | touchTiltUp (event : HammerEvent α)
  | touchRotateDown (event : HammerEvent α)
  | touchRotateMove (event : HammerEvent α)
  | touchRotateUp (event : HammerEvent α)
  | touchZoomDown (event : HammerEvent α)
  | touchZoomMove (event : HammerEvent α)
  | infoClick (event : HammerEvent α)

/-- The state after the handler of an input has run. -/
def Input.handle (M : JSMath α) (s : Controls α) : Input α → Controls α
  | Input.mouseMove event => onMouseMove s event
  | Input.mouseDown event => onMouseDown s event
  | Input.mouseUp event => onMouseUp s event
  | Input.mouseWheel event => onMouseWheel s event
  | Input.keyDown event => onKeyDown s event
  | Input.keyUp event => onKeyUp s event
  | Input.touchDown event => onTouchDown s event
  | Input.touchMove event => onTouchMove M s event
  | Input.touchUp event => onTouchUp s event
  | Input.touchTiltDown event => onTouchTiltDown s event
  | Input.touchTiltMove event => onTouchTiltMove M s event
  | Input.touchTiltUp event => onTouchTiltUp s event
  | Input.touchRotateDown event => onTouchRotateDown s event
  | Input.touchRotateMove event => onTouchRotateMove M s event
  | Input.touchRotateUp event => onTouchRotateUp s event
  | Input.touchZoomDown event => onTouchZoomDown s event
  | Input.touchZoomMove event => onTouchZoomMove s event
  | Input.infoClick event => (onInfoClick s event).1

/-- The gesture starts `movestart`, `tiltstart` and `rotatestart`. -/
def Input.isTouchStart : Input α → Bool
  | Input.touchDown _ => true
  | Input.touchTiltDown _ => true
  | Input.touchRotateDown _ => true
  | _ => false

/-- One smoothing step as the specification describes it: `current'` is
`current` moved toward `target` by the fraction `s` of their difference, which
leaves the fraction `1 - s` of the difference, a strictly smaller one unless
`current` was at `target`. -/
def SmoothedToward (current target current' s : α) : Prop :=
  current' = current + (target - current) * s ∧
    |target - current'| = (1 - s) * |target - current| ∧
    (current ≠ target → |target - current'| < |target - current|)

/-- The state after `n` consecutive calls of `update()` with no input event in
between. -/
def updates (M : JSMath α) (scene : HeightScene α) : Nat → Controls α → Controls α
  | 0, s => s
  | n + 1, s => (update M scene (updates M scene n s)).1

/-- No direction key is held. -/
def NoKeyHeld (s : Controls α) : Prop :=
  s.keyStates KEYS.UP = false ∧ s.keyStates KEYS.DOWN = false ∧
    s.keyStates KEYS.LEFT = false ∧ s.keyStates KEYS.RIGHT = false

/-- The input state that `updateMouseMoves` leaves behind when no key is held:
the pointer is where it was last sampled, and outside of the mode MOVE no pan
delta is pending. -/
def Quiescent (s : Controls α) : Prop :=
  NoKeyHeld s ∧ s.lastMouse.x - s.mouse.x = 0 ∧ s.lastMouse.y - s.mouse.y = 0 ∧
    (s.state = STATES.MOVE ∨ (s.moveDelta.x = 0 ∧ s.moveDelta.y = 0))

/-- The `terrainHeight` that `updateHeights()` leaves, as a function of the
results of its two ray queries and of the previous `terrainHeight`. -/
def resampled (target camera : RayResult α) (terrainHeight : α) : α :=
  let terrainHeight : α :=
    match target with
    | RayResult.hits (y :: _) => y
    | _ => terrainHeight
  match camera with
  | RayResult.hits (y :: _) => if y > terrainHeight then y else terrainHeight
  | _ => terrainHeight

end Controls

end Model

section Theorems

open Controls

variable {α : Type} [LinearOrderedField α]

set_option linter.unusedSectionVars false

/-! ## Zoom: wheel and pinch -/

theorem clamp_mem (x lo hi : α) (h : lo ≤ hi) : lo ≤ clamp x lo hi ∧ clamp x lo hi ≤ hi := by
  unfold clamp
  exact ⟨le_min (le_max_right x lo) h, min_le_right _ _⟩

theorem onMouseWheel_settings (s : Controls α) (event : WheelEvent α) :
    (onMouseWheel s event).settings = s.settings := by
  unfold onMouseWheel
  dsimp only
  split_ifs <;> rfl

theorem onTouchZoomMove_settings (s : Controls α) (event : HammerEvent α) :
    (onTouchZoomMove s event).settings = s.settings := by
  unfold onTouchZoomMove
  dsimp only
  split_ifs <;> rfl

theorem clamp_eq_ite (x lo hi : α) :
    clamp x lo hi = if (if x < lo then lo else x) > hi then hi else (if x < lo then lo else x) := by
  unfold clamp
  have hmax : max x lo = if x < lo then lo else x := by
    split_ifs with h
    · exact max_eq_right h.le
    · exact max_eq_left (not_lt.mp h)
  rw [← hmax]
  split_ifs with h
  · exact min_eq_right h.le
  · exact min_eq_left (not_lt.mp h)

theorem onTouchZoomMove_targetDistance (s : Controls α) (event : HammerEvent α) :
    (onTouchZoomMove s event).targetDistance =
      clamp (s.touchZoomStart / event.scale) s.settings.zoom.min s.settings.zoom.max := by
  rw [clamp_eq_ite]
  unfold onTouchZoomMove
  dsimp only
  split_ifs <;> rfl

theorem onMouseWheel_targetDistance (s : Controls α) (event : WheelEvent α) :
    (onMouseWheel s event).targetDistance =
      clamp
        (if event.deltaY > 0 then s.targetDistance * s.settings.zoom.speed
         else if event.deltaY < 0 then s.targetDistance / s.settings.zoom.speed
         else s.targetDistance)
        s.settings.zoom.min s.settings.zoom.max := by
  rw [clamp_eq_ite]
  unfold onMouseWheel
  by_cases h1 : event.deltaY > 0
  · simp only [h1, if_true]
    split_ifs <;> rfl
  · by_cases h2 : event.deltaY < 0
    · simp only [h1, h2, if_true, if_false]
      split_ifs <;> rfl
    · simp only [h1, h2, if_false]
      split_ifs <;> rfl

theorem runZoom_settings (s : Controls α) (inputs : List (ZoomInput α)) :
    (runZoom s inputs).settings = s.settings := by
  unfold runZoom
  induction inputs generalizing s with
  | nil => rfl
  | cons i rest ih =>
    rw [List.foldl_cons, ih]
    cases i with
    | wheel event => exact onMouseWheel_settings s event
    | zoomDown event => rfl
    | zoomMove event => exact onTouchZoomMove_settings s event

theorem handle_writesDistance_mem (s : Controls α) (i : ZoomInput α)
    (hle : s.settings.zoom.min ≤ s.settings.zoom.max) (hi : i.writesDistance = true) :
    s.settings.zoom.min ≤ (ZoomInput.handle s i).targetDistance ∧
      (ZoomInput.handle s i).targetDistance ≤ s.settings.zoom.max := by
  cases i with
  | wheel event =>
    show _ ≤ (onMouseWheel s event).targetDistance ∧ (onMouseWheel s event).targetDistance ≤ _
    rw [onMouseWheel_targetDistance]
    exact clamp_mem _ _ _ hle
  | zoomDown event => exact absurd hi (by simp [ZoomInput.writesDistance])
  | zoomMove event =>
    show _ ≤ (onTouchZoomMove s event).targetDistance ∧ (onTouchZoomMove s event).targetDistance ≤ _
    rw [onTouchZoomMove_targetDistance]
    exact clamp_mem _ _ _ hle

/-- C1: with `zoom.min ≤ zoom.max`, from any state and after any sequence
`before` of wheel, pinch-start and pinch-move events, the state reached by a
following wheel event or pinch move `i` has `targetDistance` in
`[zoom.min, zoom.max]`; so `targetDistance` is in range after each wheel event
and each pinch move of every sequence. -/
theorem targetDistance_in_range_after_zoom_input (s : Controls α)
    (before : List (ZoomInput α)) (i : ZoomInput α)
    (hle : s.settings.zoom.min ≤ s.settings.zoom.max) (hi : i.writesDistance = true) :
    s.settings.zoom.min ≤ (runZoom s (before ++ [i])).targetDistance ∧
      (runZoom s (before ++ [i])).targetDistance ≤ s.settings.zoom.max := by
  have hrun : runZoom s (before ++ [i]) = ZoomInput.handle (runZoom s before) i := by
    simp [runZoom, List.foldl_append]
  have hset := runZoom_settings s before
  rw [hrun, ← hset]
  exact handle_writesDistance_mem _ i (by rw [hset]; exact hle) hi

/-- Witness of C1: a freshly constructed controller, zoomed by a wheel step, a
pinch start and a pinch move, then by one more wheel step. -/
theorem targetDistance_in_range_after_zoom_input_witness :
    (construct (⟨Real.pi, fun x y => x ^ y, Real.sin, Real.cos⟩ : JSMath ℝ) 800).settings.zoom.min ≤
        (construct (⟨Real.pi, fun x y => x ^ y, Real.sin, Real.cos⟩ : JSMath ℝ) 800).settings.zoom.max ∧
      (ZoomInput.wheel (⟨-3⟩ : WheelEvent ℝ)).writesDistance = true ∧
      (construct (⟨Real.pi, fun x y => x ^ y, Real.sin, Real.cos⟩ : JSMath ℝ) 800).settings.zoom.min ≤
        (runZoom (construct (⟨Real.pi, fun x y => x ^ y, Real.sin, Real.cos⟩ : JSMath ℝ) 800)
          ([ZoomInput.wheel ⟨100⟩, ZoomInput.zoomDown ⟨"touch", 0, 0, 0, 1, ⟨0, 0⟩⟩,
            ZoomInput.zoomMove ⟨"touch", 0, 0, 0, 300, ⟨0, 0⟩⟩] ++
            [ZoomInput.wheel ⟨-3⟩])).targetDistance ∧
      (runZoom (construct (⟨Real.pi, fun x y => x ^ y, Real.sin, Real.cos⟩ : JSMath ℝ) 800)
          ([ZoomInput.wheel ⟨100⟩, ZoomInput.zoomDown ⟨"touch", 0, 0, 0, 1, ⟨0, 0⟩⟩,
            ZoomInput.zoomMove ⟨"touch", 0, 0, 0, 300, ⟨0, 0⟩⟩] ++
            [ZoomInput.wheel ⟨-3⟩])).targetDistance ≤
        (construct (⟨Real.pi, fun x y => x ^ y, Real.sin, Real.cos⟩ : JSMath ℝ) 800).settings.zoom.max :=
  have hle : (construct (⟨Real.pi, fun x y => x ^ y, Real.sin, Real.cos⟩ : JSMath ℝ) 800).settings.zoom.min ≤
      (construct (⟨Real.pi, fun x y => x ^ y, Real.sin, Real.cos⟩ : JSMath ℝ) 800).settings.zoom.max := by
    norm_num [construct, resetPosition, defaultSettings]
  ⟨hle, rfl, targetDistance_in_range_after_zoom_input _ _ _ hle rfl⟩

/-- C2: `onMouseWheel` sets `targetDistance` to the clamp into
`[zoom.min, zoom.max]` of `targetDistance * zoom.speed` for `deltaY > 0`, of
`targetDistance / zoom.speed` for `deltaY < 0` and of `targetDistance` itself
for `deltaY = 0`; with speed 1.5, min 10 and max 2000 an event with
`deltaY = 100` takes 1000 to 1500 and 1900 to 2000. -/
theorem onMouseWheel_clamps (s : Controls α) (event : WheelEvent α) :
    (event.deltaY > 0 → (onMouseWheel s event).targetDistance =
        clamp (s.targetDistance * s.settings.zoom.speed) s.settings.zoom.min s.settings.zoom.max) ∧
    (event.deltaY < 0 → (onMouseWheel s event).targetDistance =
        clamp (s.targetDistance / s.settings.zoom.speed) s.settings.zoom.min s.settings.zoom.max) ∧
    (event.deltaY = 0 → (onMouseWheel s event).targetDistance =
        clamp s.targetDistance s.settings.zoom.min s.settings.zoom.max) ∧
    (s.settings.zoom.speed = 1.5 → s.settings.zoom.min = 10 → s.settings.zoom.max = 2000 →
      event.deltaY = 100 →
        (s.targetDistance = 1000 → (onMouseWheel s event).targetDistance = 1500) ∧
        (s.targetDistance = 1900 → (onMouseWheel s event).targetDistance = 2000)) := by
  refine ⟨fun h => ?_, fun h => ?_, fun h => ?_, fun hs hmin hmax he => ⟨fun hd => ?_, fun hd => ?_⟩⟩
  · rw [onMouseWheel_targetDistance, if_pos h]
  · rw [onMouseWheel_targetDistance, if_neg (not_lt.mpr h.le), if_pos h]
  · rw [onMouseWheel_targetDistance, h]
    simp
  · rw [onMouseWheel_targetDistance, he, hs, hmin, hmax, hd, clamp_eq_ite]
    norm_num
  · rw [onMouseWheel_targetDistance, he, hs, hmin, hmax, hd, clamp_eq_ite]
    norm_num

/-- Witness of C2: the scenario run on a freshly constructed controller, whose
`targetDistance` is 1000. -/
theorem onMouseWheel_clamps_witness :
    (onMouseWheel (construct (⟨Real.pi, fun x y => x ^ y, Real.sin, Real.cos⟩ : JSMath ℝ) 800)
      ⟨100⟩).targetDistance = 1500 :=
  (onMouseWheel_clamps (construct (⟨Real.pi, fun x y => x ^ y, Real.sin, Real.cos⟩ : JSMath ℝ) 800)
    ⟨100⟩).2.2.2 rfl rfl rfl rfl |>.1 rfl

/-- C3, as amended: with `zoom.min = 10` and `zoom.max = 2000`, a pinch started
at `targetDistance = 1000` gives `targetDistance = 500` on a move with scale 2
and `targetDistance = zoom.max = 2000` on a move with scale 0.1. -/
theorem pinch_scenario (s : Controls α) (down move : HammerEvent α)
    (hmin : s.settings.zoom.min = 10) (hmax : s.settings.zoom.max = 2000)
    (hd : s.targetDistance = 1000) :
    (move.scale = 2 → (onTouchZoomMove (onTouchZoomDown s down) move).targetDistance = 500) ∧
    (move.scale = 0.1 → (onTouchZoomMove (onTouchZoomDown s down) move).targetDistance = 2000) := by
  have hstart : (onTouchZoomDown s down).touchZoomStart = 1000 := hd
  have hset : (onTouchZoomDown s down).settings = s.settings := rfl
  constructor
  · intro h
    rw [onTouchZoomMove_targetDistance, hstart, hset, hmin, hmax, h, clamp_eq_ite]
    norm_num
  · intro h
    rw [onTouchZoomMove_targetDistance, hstart, hset, hmin, hmax, h, clamp_eq_ite]
    norm_num

/-- Witness of C3 as amended: the pinch on a freshly constructed controller. -/
theorem pinch_scenario_witness :
    (onTouchZoomMove
      (onTouchZoomDown (construct (⟨Real.pi, fun x y => x ^ y, Real.sin, Real.cos⟩ : JSMath ℝ) 800)
        ⟨"touch", 0, 0, 0, 1, ⟨0, 0⟩⟩)
      ⟨"touch", 0, 0, 0, 2, ⟨0, 0⟩⟩).targetDistance = 500 :=
  (pinch_scenario (construct (⟨Real.pi, fun x y => x ^ y, Real.sin, Real.cos⟩ : JSMath ℝ) 800)
    ⟨"touch", 0, 0, 0, 1, ⟨0, 0⟩⟩ ⟨"touch", 0, 0, 0, 2, ⟨0, 0⟩⟩ rfl rfl rfl).1 rfl

/-- Counterexample to C3 as stated: on a freshly constructed controller
(`zoom.min = 10`, `zoom.max = 2000`, `targetDistance = 1000`) a pinch move with
scale 0.1 asks for 1000 / 0.1 = 10000 and is clamped to `zoom.max = 2000`, not
to `zoom.min = 10`. -/
theorem pinch_scale_tenth_not_zoom_min :
    (onTouchZoomMove
      (onTouchZoomDown (construct (⟨Real.pi, fun x y => x ^ y, Real.sin, Real.cos⟩ : JSMath ℝ) 800)
        ⟨"touch", 0, 0, 0, 1, ⟨0, 0⟩⟩)
      ⟨"touch", 0, 0, 0, 0.1, ⟨0, 0⟩⟩).targetDistance = 2000 ∧
    (onTouchZoomMove
      (onTouchZoomDown (construct (⟨Real.pi, fun x y => x ^ y, Real.sin, Real.cos⟩ : JSMath ℝ) 800)
        ⟨"touch", 0, 0, 0, 1, ⟨0, 0⟩⟩)
      ⟨"touch", 0, 0, 0, 0.1, ⟨0, 0⟩⟩).targetDistance ≠ 10 := by
  have h : (onTouchZoomMove
      (onTouchZoomDown (construct (⟨Real.pi, fun x y => x ^ y, Real.sin, Real.cos⟩ : JSMath ℝ) 800)
        ⟨"touch", 0, 0, 0, 1, ⟨0, 0⟩⟩)
      ⟨"touch", 0, 0, 0, 0.1, ⟨0, 0⟩⟩).targetDistance = 2000 := by
    rw [onTouchZoomMove_targetDistance, clamp_eq_ite]
    norm_num [onTouchZoomDown, construct, resetPosition, defaultSettings]
  exact ⟨h, by rw [h]; norm_num⟩

/-! ## The mode: mouse presses and gesture starts -/

theorem onMouseDown_of_ne_NONE (s : Controls α) (event : MouseEvent α) (h : s.state ≠ STATES.NONE) :
    onMouseDown s event = s := by
  unfold onMouseDown
  rw [if_pos h]

theorem onMouseWheel_state (s : Controls α) (event : WheelEvent α) :
    (onMouseWheel s event).state = s.state := by
  unfold onMouseWheel
  dsimp only
  split_ifs <;> rfl

theorem onTouchZoomMove_state (s : Controls α) (event : HammerEvent α) :
    (onTouchZoomMove s event).state = s.state := by
  unfold onTouchZoomMove
  dsimp only
  split_ifs <;> rfl

theorem onMouseUp_state (s : Controls α) (event : MouseEvent α) :
    (onMouseUp s event).state = s.state ∨ (onMouseUp s event).state = STATES.NONE := by
  unfold onMouseUp
  split_ifs <;> simp

theorem onTouchMove_state (M : JSMath α) (s : Controls α) (event : HammerEvent α) :
    (onTouchMove M s event).state = s.state := by
  unfold onTouchMove
  dsimp only
  split_ifs <;> rfl

theorem onTouchUp_state (s : Controls α) (event : HammerEvent α) :
    (onTouchUp s event).state = s.state ∨ (onTouchUp s event).state = STATES.NONE := by
  unfold onTouchUp
  split_ifs <;> simp

theorem onTouchTiltMove_state (M : JSMath α) (s : Controls α) (event : HammerEvent α) :
    (onTouchTiltMove M s event).state = s.state := by
  unfold onTouchTiltMove
  split_ifs <;> rfl

theorem onTouchRotateMove_state (M : JSMath α) (s : Controls α) (event : HammerEvent α) :
    (onTouchRotateMove M s event).state = s.state := by
  unfold onTouchRotateMove
  dsimp only
  split_ifs <;> rfl

/-- C6, as amended: a mouse press never takes the mode from MOVE to ORBIT or
from ORBIT to MOVE (in either mode `onMouseDown` leaves the whole state
unchanged); the gesture starts are not guarded, `onTouchTiltDown` and
`onTouchRotateDown` set the mode to ORBIT and `onTouchDown` with a non-mouse
pointer sets it to MOVE whatever the mode was; and under every input that is
not a gesture start the mode stays as it is or becomes NONE. -/
theorem mode_exclusive_for_mouse (M : JSMath α) (s : Controls α) :
    (∀ event : MouseEvent α, s.state = STATES.MOVE → onMouseDown s event = s) ∧
    (∀ event : MouseEvent α, s.state = STATES.ORBIT → onMouseDown s event = s) ∧
    (∀ event : HammerEvent α, (onTouchTiltDown s event).state = STATES.ORBIT) ∧
    (∀ event : HammerEvent α, (onTouchRotateDown s event).state = STATES.ORBIT) ∧
    (∀ event : HammerEvent α, event.pointerType ≠ "mouse" →
      (onTouchDown s event).state = STATES.MOVE) ∧
    (∀ i : Input α, i.isTouchStart = false → s.state ≠ STATES.NONE →
      (i.handle M s).state = s.state ∨ (i.handle M s).state = STATES.NONE) := by
  refine ⟨fun event h => ?_, fun event h => ?_, fun _ => rfl, fun _ => rfl, fun event h => ?_,
    fun i hi hs => ?_⟩
  · exact onMouseDown_of_ne_NONE s event (by rw [h]; decide)
  · exact onMouseDown_of_ne_NONE s event (by rw [h]; decide)
  · unfold onTouchDown
    rw [if_neg h]
  · cases i with
    | mouseMove event => exact Or.inl rfl
    | mouseDown event => exact Or.inl (by rw [Input.handle, onMouseDown_of_ne_NONE s event hs])
    | mouseUp event => exact onMouseUp_state s event
    | mouseWheel event => exact Or.inl (onMouseWheel_state s event)
    | keyDown event => exact Or.inl rfl
    | keyUp event => exact Or.inl rfl
    | touchDown event => exact absurd hi (by simp [Input.isTouchStart])
    | touchMove event => exact Or.inl (onTouchMove_state M s event)
    | touchUp event => exact onTouchUp_state s event
    | touchTiltDown event => exact absurd hi (by simp [Input.isTouchStart])
    | touchTiltMove event => exact Or.inl (onTouchTiltMove_state M s event)
    | touchTiltUp event => exact Or.inr rfl
    | touchRotateDown event => exact absurd hi (by simp [Input.isTouchStart])
    | touchRotateMove event => exact Or.inl (onTouchRotateMove_state M s event)
    | touchRotateUp event => exact Or.inr rfl
    | touchZoomDown event => exact Or.inl rfl
    | touchZoomMove event => exact Or.inl (onTouchZoomMove_state s event)
    | infoClick event => exact Or.inl rfl

/-- Counterexample to C6 as stated: on a freshly constructed controller a
one-finger drag start puts the mode to MOVE, and a following `onTouchTiltDown`
(a start event of the orbiting mode) changes it to ORBIT, not through NONE. -/
theorem tilt_start_leaves_MOVE :
    (onTouchDown (construct (⟨Real.pi, fun x y => x ^ y, Real.sin, Real.cos⟩ : JSMath ℝ) 800)
      ⟨"touch", 0, 0, 0, 1, ⟨0, 0⟩⟩).state = STATES.MOVE ∧
    (onTouchTiltDown
      (onTouchDown (construct (⟨Real.pi, fun x y => x ^ y, Real.sin, Real.cos⟩ : JSMath ℝ) 800)
        ⟨"touch", 0, 0, 0, 1, ⟨0, 0⟩⟩)
      ⟨"touch", 0, 0, 0, 1, ⟨0, 0⟩⟩).state ≠ STATES.MOVE := by
  constructor
  · simp [onTouchDown]
  · simp [onTouchTiltDown]

/-- C7: in a mode other than NONE `onMouseDown` leaves the whole state
unchanged, for every button; in mode NONE it sets the mode to MOVE for the MOVE
(left) button, to ORBIT for the ORBIT (right) button and leaves it NONE for any
other button, and it never writes anything but the mode. -/
theorem onMouseDown_guarded (s : Controls α) (event : MouseEvent α) :
    (s.state ≠ STATES.NONE → onMouseDown s event = s) ∧
    (s.state = STATES.NONE →
      (event.button = KEYS.MOVE → (onMouseDown s event).state = STATES.MOVE) ∧
      (event.button = KEYS.ORBIT → (onMouseDown s event).state = STATES.ORBIT) ∧
      (event.button ≠ KEYS.MOVE → event.button ≠ KEYS.ORBIT →
        (onMouseDown s event).state = STATES.NONE)) ∧
    onMouseDown s event = { s with state := (onMouseDown s event).state } := by
  refine ⟨onMouseDown_of_ne_NONE s event, fun h => ⟨fun hb => ?_, fun hb => ?_, fun h1 h2 => ?_⟩, ?_⟩
  · unfold onMouseDown
    rw [if_neg (not_not.mpr h), if_pos hb]
  · have hne : event.button ≠ KEYS.MOVE := by rw [hb]; decide
    unfold onMouseDown
    rw [if_neg (not_not.mpr h), if_neg hne, if_pos hb]
  · unfold onMouseDown
    rw [if_neg (not_not.mpr h), if_neg h1, if_neg h2]
    exact h
  · unfold onMouseDown
    split_ifs <;> rfl

/-- Witness of C7: the three kinds of button on a freshly constructed
controller, whose mode is NONE, and a press during a drag. -/
theorem onMouseDown_guarded_witness :
    (onMouseDown (construct (⟨Real.pi, fun x y => x ^ y, Real.sin, Real.cos⟩ : JSMath ℝ) 800)
      ⟨0, 0, 2⟩).state = STATES.ORBIT :=
  ((onMouseDown_guarded (construct (⟨Real.pi, fun x y => x ^ y, Real.sin, Real.cos⟩ : JSMath ℝ) 800)
    ⟨0, 0, 2⟩).2.1 rfl).2.1 rfl

/-! ## One frame: `update()` -/

theorem updateHeights_eq (scene : HeightScene α) (s : Controls α) :
    updateHeights scene s = { s with terrainHeight := (updateHeights scene s).terrainHeight } :=
  rfl

theorem ite_updateHeights (c : Bool) (scene : HeightScene α) (s : Controls α) :
    (if c = true then updateHeights scene s else s) =
      { s with
        terrainHeight := if c = true then (updateHeights scene s).terrainHeight else s.terrainHeight } := by
  cases c <;> rfl

theorem updateMouseMoves_eq (M : JSMath α) (s : Controls α) :
    updateMouseMoves M s =
      { s with
        deltaMouse := (updateMouseMoves M s).deltaMouse
        moveDelta := (updateMouseMoves M s).moveDelta
        lastMouse := (updateMouseMoves M s).lastMouse
        targetPosition := (updateMouseMoves M s).targetPosition
        targetDirection := (updateMouseMoves M s).targetDirection
        targetAngle := (updateMouseMoves M s).targetAngle } := by
  unfold updateMouseMoves
  dsimp only
  by_cases h : s.state = STATES.MOVE ∧ s.lastMouse.x - s.mouse.x = 0 ∧ s.lastMouse.y - s.mouse.y = 0
  · simp only [if_pos h]
  · simp only [if_neg h]

theorem updateMouseMoves_targetPosition_y (M : JSMath α) (s : Controls α) :
    (updateMouseMoves M s).targetPosition.y = s.targetPosition.y := by
  unfold updateMouseMoves
  dsimp only
  by_cases h : s.state = STATES.MOVE ∧ s.lastMouse.x - s.mouse.x = 0 ∧ s.lastMouse.y - s.mouse.y = 0
  · simp only [if_pos h]
  · simp only [if_neg h]
    split_ifs <;> rfl

/-- Without a held direction key, in a mode other than MOVE and with no pan
delta pending, `updateMouseMoves` does not pan. -/
theorem updateMouseMoves_targetPosition_of_idle (M : JSMath α) (s : Controls α)
    (hU : s.keyStates KEYS.UP = false) (hD : s.keyStates KEYS.DOWN = false)
    (hL : s.keyStates KEYS.LEFT = false) (hR : s.keyStates KEYS.RIGHT = false)
    (hstate : s.state ≠ STATES.MOVE) (hx : s.moveDelta.x = 0) (hy : s.moveDelta.y = 0) :
    (updateMouseMoves M s).targetPosition = s.targetPosition := by
  unfold updateMouseMoves
  simp [hU, hD, hL, hR, hstate, hx, hy]

theorem updateMouseMoves_orbit_of_ne (M : JSMath α) (s : Controls α)
    (hstate : s.state ≠ STATES.ORBIT) :
    (updateMouseMoves M s).targetDirection = s.targetDirection ∧
      (updateMouseMoves M s).targetAngle = s.targetAngle := by
  unfold updateMouseMoves
  dsimp only
  by_cases h : s.state = STATES.MOVE ∧ s.lastMouse.x - s.mouse.x = 0 ∧ s.lastMouse.y - s.mouse.y = 0
  · simp only [if_pos h, and_self]
  · simp only [if_neg h, if_neg hstate, and_self]

theorem update_fst_eq (M : JSMath α) (scene : HeightScene α) (s : Controls α) :
    (update M scene s).1 =
      { updateMouseMoves M s with
        position := (update M scene s).1.position
        distance := (update M scene s).1.distance
        direction := (update M scene s).1.direction
        targetAngle := (update M scene s).1.targetAngle
        angle := (update M scene s).1.angle
        orbitRot := (update M scene s).1.orbitRot
        cameraPosDelta := (update M scene s).1.cameraPosDelta
        cameraPosition := (update M scene s).1.cameraPosition
        terrainHeight := (update M scene s).1.terrainHeight } := by
  unfold update
  simp only [ite_updateHeights]

theorem update_settings (M : JSMath α) (scene : HeightScene α) (s : Controls α) :
    (update M scene s).1.settings = s.settings := by
  rw [update_fst_eq, updateMouseMoves_eq]

theorem update_state (M : JSMath α) (scene : HeightScene α) (s : Controls α) :
    (update M scene s).1.state = s.state := by
  rw [update_fst_eq, updateMouseMoves_eq]

theorem update_keyStates (M : JSMath α) (scene : HeightScene α) (s : Controls α) :
    (update M scene s).1.keyStates = s.keyStates := by
  rw [update_fst_eq, updateMouseMoves_eq]

theorem update_targetDistance (M : JSMath α) (scene : HeightScene α) (s : Controls α) :
    (update M scene s).1.targetDistance = s.targetDistance := by
  rw [update_fst_eq, updateMouseMoves_eq]

theorem update_targetPosition (M : JSMath α) (scene : HeightScene α) (s : Controls α) :
    (update M scene s).1.targetPosition = (updateMouseMoves M s).targetPosition := by
  rw [update_fst_eq]

theorem update_targetDirection (M : JSMath α) (scene : HeightScene α) (s : Controls α) :
    (update M scene s).1.targetDirection = (updateMouseMoves M s).targetDirection := by
  rw [update_fst_eq]

theorem update_position (M : JSMath α) (scene : HeightScene α) (s : Controls α) :
    (update M scene s).1.position =
      ⟨s.position.x + ((updateMouseMoves M s).targetPosition.x - s.position.x) * s.settings.move.smooth,
       s.position.y + (max s.targetPosition.y s.terrainHeight - s.position.y) * s.settings.move.smoothY,
       s.position.z + ((updateMouseMoves M s).targetPosition.z - s.position.z) * s.settings.move.smooth⟩ := by
  rw [← updateMouseMoves_targetPosition_y M s]
  unfold update
  simp only [ite_updateHeights]
  rw [updateMouseMoves_eq]

theorem update_distance (M : JSMath α) (scene : HeightScene α) (s : Controls α) :
    (update M scene s).1.distance =
      s.distance + (s.targetDistance - s.distance) * s.settings.zoom.smooth := by
  unfold update
  simp only [ite_updateHeights]
  rw [updateMouseMoves_eq]

theorem update_direction (M : JSMath α) (scene : HeightScene α) (s : Controls α) :
    (update M scene s).1.direction =
      s.direction + ((updateMouseMoves M s).targetDirection - s.direction) * s.settings.rotate.smooth := by
  unfold update
  simp only [ite_updateHeights]
  rw [updateMouseMoves_eq]

theorem update_targetAngle (M : JSMath α) (scene : HeightScene α) (s : Controls α) :
    (update M scene s).1.targetAngle =
      if (if (updateMouseMoves M s).targetAngle > maxPitch M s.settings (update M scene s).1.distance
            then maxPitch M s.settings (update M scene s).1.distance
            else (updateMouseMoves M s).targetAngle) < 0.01
        then 0.001
        else
          (if (updateMouseMoves M s).targetAngle > maxPitch M s.settings (update M scene s).1.distance
            then maxPitch M s.settings (update M scene s).1.distance
            else (updateMouseMoves M s).targetAngle) := by
  unfold update
  simp only [ite_updateHeights]
  rw [updateMouseMoves_eq]

theorem update_angle (M : JSMath α) (scene : HeightScene α) (s : Controls α) :
    (update M scene s).1.angle =
      s.angle + ((update M scene s).1.targetAngle - s.angle) * s.settings.tilt.smooth := by
  unfold update
  simp only [ite_updateHeights]
  rw [updateMouseMoves_eq]

theorem update_cameraPosition (M : JSMath α) (scene : HeightScene α) (s : Controls α) :
    (update M scene s).1.cameraPosition =
      ⟨(update M scene s).1.position.x +
          (Vector3.applyEuler M ⟨0, (update M scene s).1.distance, 0⟩
            ⟨(update M scene s).1.angle, (update M scene s).1.direction, 0⟩).x,
       (update M scene s).1.position.y +
          (Vector3.applyEuler M ⟨0, (update M scene s).1.distance, 0⟩
            ⟨(update M scene s).1.angle, (update M scene s).1.direction, 0⟩).y,
       (update M scene s).1.position.z +
          (Vector3.applyEuler M ⟨0, (update M scene s).1.distance, 0⟩
            ⟨(update M scene s).1.angle, (update M scene s).1.direction, 0⟩).z⟩ := by
  unfold update
  simp only [ite_updateHeights]

theorem update_changed (M : JSMath α) (scene : HeightScene α) (s : Controls α) :
    (update M scene s).2 =
      (decide (|(update M scene s).1.direction - s.direction| > 0.001) ||
        decide (|(update M scene s).1.angle - s.angle| > 0.001) ||
        decide (|s.cameraPosition.x + s.cameraPosition.y + s.cameraPosition.z -
          ((update M scene s).1.cameraPosition.x + (update M scene s).1.cameraPosition.y +
            (update M scene s).1.cameraPosition.z)| > 0.001)) := by
  rw [update_direction, update_angle, add_sub_cancel_left, add_sub_cancel_left]
  unfold update
  simp only [ite_updateHeights]
  rw [updateMouseMoves_eq]

theorem smoothedToward_of_eq (current target current' s : α) (h0 : 0 < s) (h1 : s ≤ 1)
    (h : current' = current + (target - current) * s) :
    SmoothedToward current target current' s := by
  have hdiff : target - current' = (1 - s) * (target - current) := by rw [h]; ring
  have habs : |target - current'| = (1 - s) * |target - current| := by
    rw [hdiff, abs_mul, abs_of_nonneg (sub_nonneg.mpr h1)]
  refine ⟨h, habs, fun hne => ?_⟩
  have hpos : 0 < |target - current| := abs_pos.mpr (sub_ne_zero.mpr (Ne.symm hne))
  rw [habs]
  nlinarith

/-- C8: in mode NONE, with no direction key held and no pan delta pending,
one `update()` leaves `targetPosition.x`, `targetPosition.z`, `targetDistance`
and `targetDirection` unchanged and moves each of `position.x`, `position.z`
(factor `move.smooth`), `distance` (factor `zoom.smooth`) and `direction`
(factor `rotate.smooth`) toward its target by one smoothing step, for factors
in (0, 1]; the pointer may or may not have moved. -/
theorem update_smooths_toward_constant_target (M : JSMath α) (scene : HeightScene α)
    (s : Controls α) (hstate : s.state = STATES.NONE)
    (hU : s.keyStates KEYS.UP = false) (hD : s.keyStates KEYS.DOWN = false)
    (hL : s.keyStates KEYS.LEFT = false) (hR : s.keyStates KEYS.RIGHT = false)
    (hx : s.moveDelta.x = 0) (hy : s.moveDelta.y = 0)
    (hmove : 0 < s.settings.move.smooth ∧ s.settings.move.smooth ≤ 1)
    (hzoom : 0 < s.settings.zoom.smooth ∧ s.settings.zoom.smooth ≤ 1)
    (hrot : 0 < s.settings.rotate.smooth ∧ s.settings.rotate.smooth ≤ 1) :
    ((update M scene s).1.targetPosition.x = s.targetPosition.x ∧
      (update M scene s).1.targetPosition.z = s.targetPosition.z ∧
      (update M scene s).1.targetDistance = s.targetDistance ∧
      (update M scene s).1.targetDirection = s.targetDirection) ∧
    SmoothedToward s.position.x s.targetPosition.x (update M scene s).1.position.x
      s.settings.move.smooth ∧
    SmoothedToward s.position.z s.targetPosition.z (update M scene s).1.position.z
      s.settings.move.smooth ∧
    SmoothedToward s.distance s.targetDistance (update M scene s).1.distance
      s.settings.zoom.smooth ∧
    SmoothedToward s.direction s.targetDirection (update M scene s).1.direction
      s.settings.rotate.smooth := by
  have hne : s.state ≠ STATES.MOVE := by rw [hstate]; decide
  have hno : s.state ≠ STATES.ORBIT := by rw [hstate]; decide
  have htp := updateMouseMoves_targetPosition_of_idle M s hU hD hL hR hne hx hy
  have htd := (updateMouseMoves_orbit_of_ne M s hno).1
  refine ⟨⟨?_, ?_, update_targetDistance M scene s, ?_⟩, ?_, ?_, ?_, ?_⟩
  · rw [update_targetPosition, htp]
  · rw [update_targetPosition, htp]
  · rw [update_targetDirection, htd]
  · exact smoothedToward_of_eq _ _ _ _ hmove.1 hmove.2 (by rw [update_position, htp])
  · exact smoothedToward_of_eq _ _ _ _ hmove.1 hmove.2 (by rw [update_position, htp])
  · exact smoothedToward_of_eq _ _ _ _ hzoom.1 hzoom.2 (update_distance M scene s)
  · exact smoothedToward_of_eq _ _ _ _ hrot.1 hrot.2 (by rw [update_direction, htd])

/-- Witness of C8: the first frame of a freshly constructed controller, whose
distance 5000 moves toward the target 1000 with factor 0.2. -/
theorem update_smooths_toward_constant_target_witness :
    SmoothedToward (5000 : ℝ) 1000
      (update (⟨Real.pi, fun x y => x ^ y, Real.sin, Real.cos⟩ : JSMath ℝ)
        ⟨[], fun _ _ => RayResult.hits []⟩
        (construct (⟨Real.pi, fun x y => x ^ y, Real.sin, Real.cos⟩ : JSMath ℝ) 800)).1.distance
      0.2 :=
  (update_smooths_toward_constant_target
    (⟨Real.pi, fun x y => x ^ y, Real.sin, Real.cos⟩ : JSMath ℝ) ⟨[], fun _ _ => RayResult.hits []⟩
    (construct (⟨Real.pi, fun x y => x ^ y, Real.sin, Real.cos⟩ : JSMath ℝ) 800)
    rfl rfl rfl rfl rfl rfl rfl
    (by norm_num [construct, resetPosition, defaultSettings])
    (by norm_num [construct, resetPosition, defaultSettings])
    (by norm_num [construct, resetPosition, defaultSettings])).2.2.2.1

/-! ## The tilt bound -/

theorem maxPitch_antitone_of_pow (M : JSMath α) (settings : Settings α) (d1 d2 : α)
    (hpow : ∀ x y : α, 0 ≤ x → x ≤ y → M.pow x (1 / 4) ≤ M.pow y (1 / 4))
    (hpow4 : 0 ≤ M.pow settings.tilt.max 4)
    (hzoom : settings.zoom.min < settings.zoom.max)
    (h1 : settings.zoom.min ≤ d1) (h12 : d1 ≤ d2) :
    maxPitch M settings d2 ≤ maxPitch M settings d1 := by
  unfold maxPitch
  have hden : 0 < settings.zoom.max - settings.zoom.min := sub_pos.mpr hzoom
  have hfrac : (d1 - settings.zoom.min) / (settings.zoom.max - settings.zoom.min) ≤
      (d2 - settings.zoom.min) / (settings.zoom.max - settings.zoom.min) :=
    div_le_div_of_nonneg_right (sub_le_sub_right h12 _) hden.le
  have hnonneg : 0 ≤ (d1 - settings.zoom.min) / (settings.zoom.max - settings.zoom.min) *
      M.pow settings.tilt.max 4 :=
    mul_nonneg (div_nonneg (sub_nonneg.mpr h1) hden.le) hpow4
  exact min_le_min le_rfl
    (sub_le_sub_left (hpow _ _ hnonneg (mul_le_mul_of_nonneg_right hfrac hpow4)) _)

theorem rpow_four_rpow_quarter (x : ℝ) (hx : 0 ≤ x) : (x ^ (4 : ℝ)) ^ (1 / 4 : ℝ) = x := by
  rw [← Real.rpow_mul hx]
  norm_num

theorem maxPitch_real_at_zoom_max (M : JSMath ℝ) (hpow : M.pow = fun x y => x ^ y)
    (settings : Settings ℝ) (hzoom : settings.zoom.min < settings.zoom.max)
    (htilt : 0 ≤ settings.tilt.max) :
    maxPitch M settings settings.zoom.max = 0 := by
  unfold maxPitch
  rw [hpow]
  dsimp only
  rw [div_self (sub_pos.mpr hzoom).ne', one_mul, rpow_four_rpow_quarter _ htilt, sub_self]
  exact min_eq_right htilt

theorem maxPitch_real_at_zoom_min (M : JSMath ℝ) (hpow : M.pow = fun x y => x ^ y)
    (settings : Settings ℝ) :
    maxPitch M settings settings.zoom.min = settings.tilt.max := by
  unfold maxPitch
  rw [hpow]
  dsimp only
  rw [sub_self, zero_div, zero_mul, Real.zero_rpow (by norm_num), sub_zero, min_self]

/-- C5, as amended: with the real fourth root for `Math.pow(·, 1/4)`,
`zoom.min < zoom.max` and `tilt.max > 0`, the bound `maxPitch` is monotonically
non-increasing in the distance from `zoom.min` upwards: for
`zoom.min ≤ d1 ≤ d2`, `maxPitch d2 ≤ maxPitch d1`. -/
theorem maxPitch_nonincreasing (settings : Settings ℝ) (d1 d2 : ℝ)
    (hzoom : settings.zoom.min < settings.zoom.max) (htilt : 0 < settings.tilt.max)
    (h1 : settings.zoom.min ≤ d1) (h12 : d1 ≤ d2) :
    maxPitch ⟨Real.pi, fun x y => x ^ y, Real.sin, Real.cos⟩ settings d2 ≤
      maxPitch ⟨Real.pi, fun x y => x ^ y, Real.sin, Real.cos⟩ settings d1 :=
  maxPitch_antitone_of_pow _ settings d1 d2
    (fun _ _ hx hxy => Real.rpow_le_rpow hx hxy (by norm_num))
    (Real.rpow_nonneg htilt.le 4) hzoom h1 h12

/-- Witness of C5 as amended: the default settings, at the distances 10 and
2000. -/
theorem maxPitch_nonincreasing_witness :
    maxPitch ⟨Real.pi, fun x y => x ^ y, Real.sin, Real.cos⟩
        (defaultSettings (⟨Real.pi, fun x y => x ^ y, Real.sin, Real.cos⟩ : JSMath ℝ)) 2000 ≤
      maxPitch ⟨Real.pi, fun x y => x ^ y, Real.sin, Real.cos⟩
        (defaultSettings (⟨Real.pi, fun x y => x ^ y, Real.sin, Real.cos⟩ : JSMath ℝ)) 10 :=
  maxPitch_nonincreasing
    (defaultSettings (⟨Real.pi, fun x y => x ^ y, Real.sin, Real.cos⟩ : JSMath ℝ)) 10 2000
    (by norm_num [defaultSettings])
    (by simp only [defaultSettings]; exact div_pos Real.pi_pos (by norm_num))
    (by norm_num [defaultSettings]) (by norm_num)

/-- Counterexample to C5 as stated: with the default settings the bound is
`tilt.max = π / 2.1` at `d1 = zoom.min = 10` and `0` at `d2 = zoom.max = 2000`,
so it decreases from `d1` to `d2`. -/
theorem maxPitch_decreases_on_defaults :
    maxPitch ⟨Real.pi, fun x y => x ^ y, Real.sin, Real.cos⟩
        (defaultSettings (⟨Real.pi, fun x y => x ^ y, Real.sin, Real.cos⟩ : JSMath ℝ)) 10 =
      Real.pi / 2.1 ∧
    maxPitch ⟨Real.pi, fun x y => x ^ y, Real.sin, Real.cos⟩
        (defaultSettings (⟨Real.pi, fun x y => x ^ y, Real.sin, Real.cos⟩ : JSMath ℝ)) 2000 = 0 ∧
    ¬ maxPitch ⟨Real.pi, fun x y => x ^ y, Real.sin, Real.cos⟩
        (defaultSettings (⟨Real.pi, fun x y => x ^ y, Real.sin, Real.cos⟩ : JSMath ℝ)) 10 ≤
      maxPitch ⟨Real.pi, fun x y => x ^ y, Real.sin, Real.cos⟩
        (defaultSettings (⟨Real.pi, fun x y => x ^ y, Real.sin, Real.cos⟩ : JSMath ℝ)) 2000 := by
  have hpos : (0 : ℝ) < Real.pi / 2.1 := div_pos Real.pi_pos (by norm_num)
  have h10 := maxPitch_real_at_zoom_min ⟨Real.pi, fun x y => x ^ y, Real.sin, Real.cos⟩ rfl
    (defaultSettings (⟨Real.pi, fun x y => x ^ y, Real.sin, Real.cos⟩ : JSMath ℝ))
  have h2000 := maxPitch_real_at_zoom_max ⟨Real.pi, fun x y => x ^ y, Real.sin, Real.cos⟩ rfl
    (defaultSettings (⟨Real.pi, fun x y => x ^ y, Real.sin, Real.cos⟩ : JSMath ℝ))
    (by norm_num [defaultSettings]) hpos.le
  refine ⟨h10, h2000, ?_⟩
  rw [show (10 : ℝ) = (defaultSettings (⟨Real.pi, fun x y => x ^ y, Real.sin, Real.cos⟩ :
      JSMath ℝ)).zoom.min from rfl, h10,
    show (2000 : ℝ) = (defaultSettings (⟨Real.pi, fun x y => x ^ y, Real.sin, Real.cos⟩ :
      JSMath ℝ)).zoom.max from rfl, h2000]
  exact not_le.mpr hpos

theorem update_targetAngle_ge (M : JSMath α) (scene : HeightScene α) (s : Controls α) :
    0.001 ≤ (update M scene s).1.targetAngle := by
  rw [update_targetAngle]
  split_ifs with h1 h2 h2
  · exact le_rfl
  · exact le_trans (by norm_num) (not_lt.mp h2)
  · exact le_rfl
  · exact le_trans (by norm_num) (not_lt.mp h2)

theorem update_targetAngle_of_lt (M : JSMath α) (scene : HeightScene α) (s : Controls α)
    (h : (updateMouseMoves M s).targetAngle < 0.01) :
    (update M scene s).1.targetAngle = 0.001 := by
  rw [update_targetAngle]
  split_ifs with h1 h2
  · rfl
  · exact absurd (lt_trans h1 h) h2
  · rfl

/-- C4, as amended: after `update()` the clamped `targetAngle` either is the
floor value 0.001 (written when the angle is below 0.01) or does not exceed
`maxPitch` of the smoothed distance that this `update()` has just computed;
the bound is taken at the current distance, not at `targetDistance`. -/
theorem targetAngle_bounded_after_update (M : JSMath α) (scene : HeightScene α)
    (s : Controls α) :
    (update M scene s).1.targetAngle = 0.001 ∨
      (update M scene s).1.targetAngle ≤
        maxPitch M (update M scene s).1.settings (update M scene s).1.distance := by
  rw [update_settings, update_targetAngle]
  split_ifs with h1 h2 h2
  · exact Or.inl rfl
  · exact Or.inr le_rfl
  · exact Or.inl rfl
  · exact Or.inr (not_lt.mp h1)

/-- Counterexample to C4 as stated: a freshly constructed controller zoomed
out by two wheel steps has `targetDistance = zoom.max = 2000`, where
`maxPitch` is 0; the next `update()` leaves `targetAngle` at 0.001 or more,
above `maxPitch(targetDistance)`. -/
theorem targetAngle_exceeds_maxPitch_of_targetDistance :
    (onMouseWheel (onMouseWheel
        (construct (⟨Real.pi, fun x y => x ^ y, Real.sin, Real.cos⟩ : JSMath ℝ) 800)
        ⟨100⟩) ⟨100⟩).targetDistance = 2000 ∧
    maxPitch ⟨Real.pi, fun x y => x ^ y, Real.sin, Real.cos⟩
        (defaultSettings (⟨Real.pi, fun x y => x ^ y, Real.sin, Real.cos⟩ : JSMath ℝ)) 2000 <
      (update ⟨Real.pi, fun x y => x ^ y, Real.sin, Real.cos⟩ ⟨[], fun _ _ => RayResult.hits []⟩
        (onMouseWheel (onMouseWheel
          (construct (⟨Real.pi, fun x y => x ^ y, Real.sin, Real.cos⟩ : JSMath ℝ) 800)
          ⟨100⟩) ⟨100⟩)).1.targetAngle := by
  constructor
  · rw [onMouseWheel_targetDistance, onMouseWheel_targetDistance, onMouseWheel_settings]
    simp only [clamp_eq_ite]
    norm_num [construct, resetPosition, defaultSettings]
  · have hmax := maxPitch_real_at_zoom_max ⟨Real.pi, fun x y => x ^ y, Real.sin, Real.cos⟩ rfl
      (defaultSettings (⟨Real.pi, fun x y => x ^ y, Real.sin, Real.cos⟩ : JSMath ℝ))
      (by norm_num [defaultSettings]) (div_pos Real.pi_pos (by norm_num)).le
    rw [show (2000 : ℝ) = (defaultSettings (⟨Real.pi, fun x y => x ^ y, Real.sin, Real.cos⟩ :
      JSMath ℝ)).zoom.max from rfl, hmax]
    exact lt_of_lt_of_le (by norm_num) (update_targetAngle_ge _ _ _)

/-! ## The returned flag -/

theorem update_fst_of_changed (M : JSMath α) (scene : HeightScene α) (s : Controls α)
    (h : (update M scene s).2 = true) :
    (update M scene s).1 =
      updateHeights scene { (update M scene s).1 with terrainHeight := s.terrainHeight } := by
  have hterrain : (updateMouseMoves M s).terrainHeight = s.terrainHeight := by
    rw [updateMouseMoves_eq]
  rw [← hterrain]
  unfold update at h ⊢
  dsimp only at h ⊢
  rw [if_pos h]
  rfl

theorem update_terrainHeight_of_unchanged (M : JSMath α) (scene : HeightScene α) (s : Controls α)
    (h : (update M scene s).2 = false) :
    (update M scene s).1.terrainHeight = s.terrainHeight := by
  have hterrain : (updateMouseMoves M s).terrainHeight = s.terrainHeight := by
    rw [updateMouseMoves_eq]
  rw [← hterrain]
  unfold update at h ⊢
  dsimp only at h ⊢
  rw [if_neg (by rw [h]; decide)]

/-- C10, as amended: `update()` returns true exactly when, during it, the
direction or the angle changes by more than 0.001 or the sum `x + y + z` of the
camera position's coordinates changes by more than 0.001, and it then
resamples the terrain; a change of `position` or `distance` counts only
through that sum. -/
theorem update_returns_true_iff (M : JSMath α) (scene : HeightScene α) (s : Controls α) :
    ((update M scene s).2 = true ↔
      (|(update M scene s).1.direction - s.direction| > 0.001 ∨
        |(update M scene s).1.angle - s.angle| > 0.001 ∨
        |s.cameraPosition.x + s.cameraPosition.y + s.cameraPosition.z -
          ((update M scene s).1.cameraPosition.x + (update M scene s).1.cameraPosition.y +
            (update M scene s).1.cameraPosition.z)| > 0.001)) ∧
    ((update M scene s).2 = true →
      (update M scene s).1 =
        updateHeights scene { (update M scene s).1 with terrainHeight := s.terrainHeight }) := by
  refine ⟨?_, update_fst_of_changed M scene s⟩
  rw [update_changed]
  simp only [Bool.or_eq_true, decide_eq_true_eq, or_assoc]

/-- A controller at rest whose target is displaced along `x` and `z` by
opposite amounts: `update()` returns false. -/
theorem update_returns_false_of_cancelling_pan (M : JSMath α) (scene : HeightScene α)
    (s : Controls α)
    (hU : s.keyStates KEYS.UP = false) (hD : s.keyStates KEYS.DOWN = false)
    (hL : s.keyStates KEYS.LEFT = false) (hR : s.keyStates KEYS.RIGHT = false)
    (hstate : s.state = STATES.NONE) (hx : s.moveDelta.x = 0) (hy : s.moveDelta.y = 0)
    (hdir : s.targetDirection = s.direction) (hdist : s.targetDistance = s.distance)
    (hang : s.angle = 0.001) (hta : s.targetAngle < 0.01)
    (hfloor : s.position.y = max s.targetPosition.y s.terrainHeight)
    (hcam : s.cameraPosition =
      ⟨s.position.x + (Vector3.applyEuler M ⟨0, s.distance, 0⟩ ⟨s.angle, s.direction, 0⟩).x,
       s.position.y + (Vector3.applyEuler M ⟨0, s.distance, 0⟩ ⟨s.angle, s.direction, 0⟩).y,
       s.position.z + (Vector3.applyEuler M ⟨0, s.distance, 0⟩ ⟨s.angle, s.direction, 0⟩).z⟩)
    (hsum : (s.targetPosition.x - s.position.x) + (s.targetPosition.z - s.position.z) = 0) :
    (update M scene s).2 = false := by
  have hne : s.state ≠ STATES.MOVE := by rw [hstate]; decide
  have hno : s.state ≠ STATES.ORBIT := by rw [hstate]; decide
  have htp := updateMouseMoves_targetPosition_of_idle M s hU hD hL hR hne hx hy
  have hto := updateMouseMoves_orbit_of_ne M s hno
  have hta2 : (update M scene s).1.targetAngle = 0.001 :=
    update_targetAngle_of_lt M scene s (by rw [hto.2]; exact hta)
  have hdist2 : (update M scene s).1.distance = s.distance := by
    rw [update_distance, hdist, sub_self, zero_mul, add_zero]
  have hdir2 : (update M scene s).1.direction = s.direction := by
    rw [update_direction, hto.1, hdir, sub_self, zero_mul, add_zero]
  have hang2 : (update M scene s).1.angle = s.angle := by
    rw [update_angle, hta2, hang, sub_self, zero_mul, add_zero]
  have hmove : s.cameraPosition.x + s.cameraPosition.y + s.cameraPosition.z -
      ((update M scene s).1.cameraPosition.x + (update M scene s).1.cameraPosition.y +
        (update M scene s).1.cameraPosition.z) = 0 := by
    rw [update_cameraPosition, hdist2, hdir2, hang2, update_position, htp, hcam, ← hfloor]
    dsimp only
    linear_combination (-s.settings.move.smooth) * hsum
  rw [update_changed, hdir2, hang2, hmove]
  norm_num

/-- Counterexample to C10 as stated: a controller at rest (distance, direction
and angle at their targets, the camera where the last `update()` put it,
`position.y` on the terrain floor 70) whose target has been moved by
`(1, 0, -1)`.  One `update()` moves `position.x` by 0.3, more than 0.001, and
`position.z` by -0.3, and returns false: the two changes cancel in the sum of
the camera's coordinates. -/
theorem diagonal_pan_returns_false :
    (update (⟨Real.pi, fun x y => x ^ y, Real.sin, Real.cos⟩ : JSMath ℝ)
      ⟨[], fun _ _ => RayResult.hits []⟩
      { construct (⟨Real.pi, fun x y => x ^ y, Real.sin, Real.cos⟩ : JSMath ℝ) 800 with
        distance := 1000
        angle := 0.001
        targetAngle := 0.001
        position := ⟨0, 70, 0⟩
        targetPosition := ⟨1, 0, -1⟩
        cameraPosition := ⟨0, 70 + 1000 * Real.cos 0.001, 1000 * Real.sin 0.001⟩ }).2 = false ∧
    (update (⟨Real.pi, fun x y => x ^ y, Real.sin, Real.cos⟩ : JSMath ℝ)
      ⟨[], fun _ _ => RayResult.hits []⟩
      { construct (⟨Real.pi, fun x y => x ^ y, Real.sin, Real.cos⟩ : JSMath ℝ) 800 with
        distance := 1000
        angle := 0.001
        targetAngle := 0.001
        position := ⟨0, 70, 0⟩
        targetPosition := ⟨1, 0, -1⟩
        cameraPosition := ⟨0, 70 + 1000 * Real.cos 0.001, 1000 * Real.sin 0.001⟩ }).1.position.x =
      0.3 := by
  constructor
  · apply update_returns_false_of_cancelling_pan
    · rfl
    · rfl
    · rfl
    · rfl
    · rfl
    · rfl
    · rfl
    · rfl
    · rfl
    · rfl
    · norm_num
    · simp [construct, resetPosition]
    · simp [construct, resetPosition, Vector3.applyEuler]
    · norm_num
  · rw [update_position]
    rw [updateMouseMoves_targetPosition_of_idle _ _ rfl rfl rfl rfl
      (by simp [construct, resetPosition]) rfl rfl]
    norm_num [construct, resetPosition, defaultSettings]

/-! ## Terrain -/

/-- C11: `update()` sets `position.y` to
`position.y + (max(targetPosition.y, terrainHeight) - position.y) * move.smoothY`
with the `terrainHeight` held when it starts; for `move.smoothY` in (0, 1] and
`terrainHeight = h > targetPosition.y` the new `position.y` lies between the
old one and `h`, and `targetPosition.y` is left as it was. -/
theorem update_position_y_floor (M : JSMath α) (scene : HeightScene α) (s : Controls α)
    (h0 : 0 < s.settings.move.smoothY) (h1 : s.settings.move.smoothY ≤ 1) :
    (update M scene s).1.position.y =
        s.position.y + (max s.targetPosition.y s.terrainHeight - s.position.y) *
          s.settings.move.smoothY ∧
    (s.targetPosition.y < s.terrainHeight →
      min s.position.y s.terrainHeight ≤ (update M scene s).1.position.y ∧
      (update M scene s).1.position.y ≤ max s.position.y s.terrainHeight) ∧
    (update M scene s).1.targetPosition.y = s.targetPosition.y := by
  have hy : (update M scene s).1.position.y =
      s.position.y + (max s.targetPosition.y s.terrainHeight - s.position.y) *
        s.settings.move.smoothY := by
    rw [update_position]
  refine ⟨hy, fun hlt => ?_, ?_⟩
  · rw [hy, max_eq_right hlt.le]
    rcases le_total s.position.y s.terrainHeight with hle | hle
    · rw [min_eq_left hle, max_eq_right hle]
      constructor <;> nlinarith [sub_nonneg.mpr hle]
    · rw [min_eq_right hle, max_eq_left hle]
      constructor <;> nlinarith [sub_nonneg.mpr hle]
  · rw [update_targetPosition, updateMouseMoves_targetPosition_y]

/-- Witness of C11: the first frame of a freshly constructed controller, with
`move.smoothY = 0.075`, `position.y = 0` and `terrainHeight = 70`. -/
theorem update_position_y_floor_witness :
    (update (⟨Real.pi, fun x y => x ^ y, Real.sin, Real.cos⟩ : JSMath ℝ)
      ⟨[], fun _ _ => RayResult.hits []⟩
      (construct (⟨Real.pi, fun x y => x ^ y, Real.sin, Real.cos⟩ : JSMath ℝ) 800)).1.position.y =
      0 + (max 0 70 - 0) * 0.075 :=
  (update_position_y_floor (⟨Real.pi, fun x y => x ^ y, Real.sin, Real.cos⟩ : JSMath ℝ)
    ⟨[], fun _ _ => RayResult.hits []⟩
    (construct (⟨Real.pi, fun x y => x ^ y, Real.sin, Real.cos⟩ : JSMath ℝ) 800)
    (by norm_num [construct, resetPosition, defaultSettings])
    (by norm_num [construct, resetPosition, defaultSettings])).1

/-- C12: `updateHeights()` always returns; when each of the two ray queries
throws or finds nothing `terrainHeight` is left as it was; when only the target
query fails a camera hit is still applied, and when only the camera query fails
a target hit is still applied. -/
theorem updateHeights_failures_retain (scene : HeightScene α) (s : Controls α) :
    ((targetQuery scene s = RayResult.failure ∨ targetQuery scene s = RayResult.hits []) →
      (cameraQuery scene s = RayResult.failure ∨ cameraQuery scene s = RayResult.hits []) →
        updateHeights scene s = s) ∧
    (∀ c rest, (targetQuery scene s = RayResult.failure ∨ targetQuery scene s = RayResult.hits []) →
      cameraQuery scene s = RayResult.hits (c :: rest) →
        (updateHeights scene s).terrainHeight = if c > s.terrainHeight then c else s.terrainHeight) ∧
    (∀ t rest, targetQuery scene s = RayResult.hits (t :: rest) →
      (cameraQuery scene s = RayResult.failure ∨ cameraQuery scene s = RayResult.hits []) →
        (updateHeights scene s).terrainHeight = t) := by
  refine ⟨fun hT hC => ?_, fun c rest hT hC => ?_, fun t rest hT hC => ?_⟩
  · unfold updateHeights
    rcases hT with hT | hT <;> rcases hC with hC | hC <;> simp only [hT, hC]
  · unfold updateHeights
    rcases hT with hT | hT <;> simp only [hT, hC]
  · unfold updateHeights
    rcases hC with hC | hC <;> simp only [hT, hC]

/-- C13: writing `h1` for `terrainHeight` after the target sample (the hit
height, or the previous value without a hit), the final `terrainHeight` is
`max(h1, c)` for a camera hit at height `c` and `h1` otherwise; it is never
below `h1`. -/
theorem updateHeights_camera_only_raises (scene : HeightScene α) (s : Controls α) :
    (∀ c rest, cameraQuery scene s = RayResult.hits (c :: rest) →
      (updateHeights scene s).terrainHeight =
        max (match targetQuery scene s with
              | RayResult.hits (y :: _) => y
              | _ => s.terrainHeight) c) ∧
    ((cameraQuery scene s = RayResult.failure ∨ cameraQuery scene s = RayResult.hits []) →
      (updateHeights scene s).terrainHeight =
        (match targetQuery scene s with
          | RayResult.hits (y :: _) => y
          | _ => s.terrainHeight)) ∧
    (match targetQuery scene s with
      | RayResult.hits (y :: _) => y
      | _ => s.terrainHeight) ≤ (updateHeights scene s).terrainHeight := by
  refine ⟨fun c rest hC => ?_, fun hC => ?_, ?_⟩
  · unfold updateHeights
    simp only [hC]
    split_ifs with h
    · exact (max_eq_right h.le).symm
    · exact (max_eq_left (not_lt.mp h)).symm
  · unfold updateHeights
    rcases hC with hC | hC <;> simp only [hC]
  · unfold updateHeights
    dsimp only
    rcases cameraQuery scene s with _ | _ | ⟨c, rest⟩
    · exact le_rfl
    · exact le_rfl
    · dsimp only
      split_ifs with h
      · exact h.le
      · exact le_rfl

/-! ## Pointer drag, key and gesture handlers -/

/-- C14: in mode MOVE with a non-zero pointer delta `d = lastMouse - mouse`,
whatever keys are held, `updateMouseMoves` adds
`rotate(d, -direction) * distance / clientHeight * move.speed` to
`(targetPosition.x, targetPosition.z)`, with the current `direction` and
`distance`, and leaves `targetPosition.y`, `targetDistance`, `targetDirection`
and `targetAngle` unchanged; the held keys contribute nothing. -/
theorem updateMouseMoves_drag (M : JSMath α) (s : Controls α)
    (hstate : s.state = STATES.MOVE)
    (hd : s.lastMouse.x - s.mouse.x ≠ 0 ∨ s.lastMouse.y - s.mouse.y ≠ 0) :
    (updateMouseMoves M s).targetPosition =
      ⟨s.targetPosition.x +
          ((Vector2.rotateAround M ⟨s.lastMouse.x - s.mouse.x, s.lastMouse.y - s.mouse.y⟩
              Vector2_ZERO (-s.direction)).x * s.distance / s.clientHeight * s.settings.move.speed),
        s.targetPosition.y,
        s.targetPosition.z +
          ((Vector2.rotateAround M ⟨s.lastMouse.x - s.mouse.x, s.lastMouse.y - s.mouse.y⟩
              Vector2_ZERO (-s.direction)).y * s.distance / s.clientHeight * s.settings.move.speed)⟩ ∧
    (updateMouseMoves M s).targetDistance = s.targetDistance ∧
    (updateMouseMoves M s).targetDirection = s.targetDirection ∧
    (updateMouseMoves M s).targetAngle = s.targetAngle := by
  have hno : s.state ≠ STATES.ORBIT := by rw [hstate]; decide
  have hret : ¬ (s.state = STATES.MOVE ∧ s.lastMouse.x - s.mouse.x = 0 ∧
      s.lastMouse.y - s.mouse.y = 0) := by
    rintro ⟨-, hx, hy⟩
    rcases hd with h | h
    · exact h hx
    · exact h hy
  refine ⟨?_, by rw [updateMouseMoves_eq], (updateMouseMoves_orbit_of_ne M s hno).1,
    (updateMouseMoves_orbit_of_ne M s hno).2⟩
  unfold updateMouseMoves
  dsimp only
  rw [if_neg hret]
  dsimp only
  rw [if_pos hstate, if_pos hd]

/-- Witness of C14: a left-button drag by `(-3, 4)` pixels on a freshly
constructed controller. -/
theorem updateMouseMoves_drag_witness :
    (updateMouseMoves (⟨Real.pi, fun x y => x ^ y, Real.sin, Real.cos⟩ : JSMath ℝ)
      (onMouseMove
        (onMouseDown (construct (⟨Real.pi, fun x y => x ^ y, Real.sin, Real.cos⟩ : JSMath ℝ) 800)
          ⟨0, 0, 0⟩)
        ⟨3, -4, 0⟩)).targetDistance = 1000 :=
  (updateMouseMoves_drag (⟨Real.pi, fun x y => x ^ y, Real.sin, Real.cos⟩ : JSMath ℝ)
    (onMouseMove
      (onMouseDown (construct (⟨Real.pi, fun x y => x ^ y, Real.sin, Real.cos⟩ : JSMath ℝ) 800)
        ⟨0, 0, 0⟩)
      ⟨3, -4, 0⟩)
    (by simp [onMouseMove, onMouseDown, construct, resetPosition, KEYS.MOVE, MOUSE.LEFT])
    (Or.inl (by
      simp [onMouseMove, onMouseDown, construct, resetPosition, KEYS.MOVE, MOUSE.LEFT]))).2.1

/-- C16: no input handler writes `position`, `distance`, `direction`, `angle`
or `terrainHeight`. -/
theorem handlers_keep_current (M : JSMath α) (s : Controls α) (i : Input α) :
    (i.handle M s).position = s.position ∧ (i.handle M s).distance = s.distance ∧
    (i.handle M s).direction = s.direction ∧ (i.handle M s).angle = s.angle ∧
    (i.handle M s).terrainHeight = s.terrainHeight := by
  cases i with
  | mouseMove event => exact ⟨rfl, rfl, rfl, rfl, rfl⟩
  | mouseDown event =>
    simp only [Input.handle, onMouseDown]
    split_ifs <;> exact ⟨rfl, rfl, rfl, rfl, rfl⟩
  | mouseUp event =>
    simp only [Input.handle, onMouseUp]
    split_ifs <;> exact ⟨rfl, rfl, rfl, rfl, rfl⟩
  | mouseWheel event =>
    simp only [Input.handle, onMouseWheel]
    split_ifs <;> exact ⟨rfl, rfl, rfl, rfl, rfl⟩
  | keyDown event => exact ⟨rfl, rfl, rfl, rfl, rfl⟩
  | keyUp event => exact ⟨rfl, rfl, rfl, rfl, rfl⟩
  | touchDown event =>
    simp only [Input.handle, onTouchDown]
    split_ifs <;> exact ⟨rfl, rfl, rfl, rfl, rfl⟩
  | touchMove event =>
    simp only [Input.handle, onTouchMove]
    split_ifs <;> exact ⟨rfl, rfl, rfl, rfl, rfl⟩
  | touchUp event =>
    simp only [Input.handle, onTouchUp]
    split_ifs <;> exact ⟨rfl, rfl, rfl, rfl, rfl⟩
  | touchTiltDown event => exact ⟨rfl, rfl, rfl, rfl, rfl⟩
  | touchTiltMove event =>
    simp only [Input.handle, onTouchTiltMove]
    split_ifs <;> exact ⟨rfl, rfl, rfl, rfl, rfl⟩
  | touchTiltUp event => exact ⟨rfl, rfl, rfl, rfl, rfl⟩
  | touchRotateDown event => exact ⟨rfl, rfl, rfl, rfl, rfl⟩
  | touchRotateMove event =>
    simp only [Input.handle, onTouchRotateMove]
    split_ifs <;> exact ⟨rfl, rfl, rfl, rfl, rfl⟩
  | touchRotateUp event => exact ⟨rfl, rfl, rfl, rfl, rfl⟩
  | touchZoomDown event => exact ⟨rfl, rfl, rfl, rfl, rfl⟩
  | touchZoomMove event =>
    simp only [Input.handle, onTouchZoomMove]
    split_ifs <;> exact ⟨rfl, rfl, rfl, rfl, rfl⟩
  | infoClick event => exact ⟨rfl, rfl, rfl, rfl, rfl⟩

/-- C17: in a mode other than NONE, `onMouseUp` puts the mode to NONE exactly
when the released button is the one of the active mode (the MOVE button in
MOVE, the ORBIT button in ORBIT) and otherwise leaves the state unchanged;
in mode NONE it leaves the state unchanged. -/
theorem onMouseUp_releases_active_mode (s : Controls α) (event : MouseEvent α) :
    (s.state ≠ STATES.NONE →
      (((onMouseUp s event).state = STATES.NONE ↔
        (event.button = KEYS.MOVE ∧ s.state = STATES.MOVE) ∨
          (event.button = KEYS.ORBIT ∧ s.state = STATES.ORBIT)) ∧
      (¬ ((event.button = KEYS.MOVE ∧ s.state = STATES.MOVE) ∨
          (event.button = KEYS.ORBIT ∧ s.state = STATES.ORBIT)) → onMouseUp s event = s))) ∧
    (s.state = STATES.NONE → onMouseUp s event = s) := by
  have hkeys : KEYS.ORBIT ≠ KEYS.MOVE := by decide
  constructor
  · intro hs
    unfold onMouseUp
    rw [if_neg hs]
    by_cases hb : event.button = KEYS.MOVE
    · have hb2 : event.button ≠ KEYS.ORBIT := by rw [hb]; exact hkeys.symm
      rw [if_pos hb]
      by_cases hm : s.state = STATES.MOVE
      · rw [if_pos hm]
        simp [hb, hm]
      · rw [if_neg hm]
        simp [hb, hm, hs, hkeys.symm]
    · rw [if_neg hb]
      by_cases hb2 : event.button = KEYS.ORBIT
      · rw [if_pos hb2]
        by_cases ho : s.state = STATES.ORBIT
        · rw [if_pos ho]
          simp [hb2, ho]
        · rw [if_neg ho]
          simp [hb2, ho, hs, hkeys]
      · rw [if_neg hb2]
        simp [hb, hb2, hs]
  · intro hs
    unfold onMouseUp
    rw [if_pos hs]

/-- Witness of C17: releasing the left button after a left-button press on a
freshly constructed controller. -/
theorem onMouseUp_releases_active_mode_witness :
    (onMouseUp
      (onMouseDown (construct (⟨Real.pi, fun x y => x ^ y, Real.sin, Real.cos⟩ : JSMath ℝ) 800)
        ⟨0, 0, 0⟩)
      ⟨0, 0, 0⟩).state = STATES.NONE :=
  ((onMouseUp_releases_active_mode
    (onMouseDown (construct (⟨Real.pi, fun x y => x ^ y, Real.sin, Real.cos⟩ : JSMath ℝ) 800)
      ⟨0, 0, 0⟩)
    ⟨0, 0, 0⟩).1 (by simp [onMouseDown, construct, resetPosition, KEYS.MOVE, MOUSE.LEFT])).1.mpr
    (Or.inl ⟨rfl, by simp [onMouseDown, construct, resetPosition, KEYS.MOVE, MOUSE.LEFT]⟩)

theorem inTile_iff (tileSize : TileSize α) (pos thisPos : Vector3 α) :
    inTile tileSize pos thisPos = true ↔
      thisPos.x - tileSize.x ≤ pos.x ∧ pos.x < thisPos.x ∧
        thisPos.z - tileSize.z ≤ pos.z ∧ pos.z < thisPos.z := by
  simp only [inTile, between, Bool.and_eq_true, decide_eq_true_eq, ge_iff_le, and_assoc]

theorem tileChildren_of_tileSize (s : Controls α) (scene : HeightScene α) (q : Vector3 α)
    (tileSize : TileSize α) (h : s.tileSize = some tileSize) :
    tileChildren s scene q =
      some (scene.children.filter fun child => inTile tileSize child.position q) := by
  unfold tileChildren
  rw [h]
  cases scene.children <;> rfl

theorem int_eq_zero_of_shift (m : ℤ) (t a b : α) (ht : 0 < t)
    (h1 : b - t ≤ a) (h2 : a < b) (h3 : b - t ≤ a + m * t) (h4 : a + m * t < b) : m = 0 := by
  have hlt : (m : α) < 1 := by
    by_contra hcon
    have := mul_le_mul_of_nonneg_right (not_lt.mp hcon) ht.le
    linarith
  have hgt : (-1 : α) < m := by
    by_contra hcon
    have := mul_le_mul_of_nonneg_right (not_lt.mp hcon) ht.le
    linarith
  have hlt2 : m < 1 := by exact_mod_cast hlt
  have hgt2 : -1 < m := by exact_mod_cast hgt
  omega

/-- C18: `updateHeights()` selects a child for the query point `q` exactly
when `q.x - tileSize.x ≤ child.x < q.x` and `q.z - tileSize.z ≤ child.z < q.z`;
so with `tileSize.x > 0` and `tileSize.z > 0`, of two children whose positions
differ by integer multiples of the tile size on each axis, not both zero, at
most one is selected. -/
theorem tile_selection_at_most_one (s : Controls α) (scene : HeightScene α)
    (tileSize : TileSize α) (q c1 c2 : Vector3 α) (m n : ℤ)
    (hts : s.tileSize = some tileSize) (hx : 0 < tileSize.x) (hz : 0 < tileSize.z)
    (h2x : c2.x = c1.x + m * tileSize.x) (h2z : c2.z = c1.z + n * tileSize.z)
    (hmn : m ≠ 0 ∨ n ≠ 0) :
    (∀ child : SceneObject α,
      (∃ selected, tileChildren s scene q = some selected ∧ child ∈ selected) ↔
        child ∈ scene.children ∧
          q.x - tileSize.x ≤ child.position.x ∧ child.position.x < q.x ∧
          q.z - tileSize.z ≤ child.position.z ∧ child.position.z < q.z) ∧
    ¬ (inTile tileSize c1 q = true ∧ inTile tileSize c2 q = true) := by
  constructor
  · intro child
    rw [tileChildren_of_tileSize s scene q tileSize hts]
    constructor
    · rintro ⟨selected, hsel, hmem⟩
      rw [← Option.some.inj hsel, List.mem_filter] at hmem
      exact ⟨hmem.1, (inTile_iff _ _ _).mp hmem.2⟩
    · rintro ⟨hmem, hin⟩
      exact ⟨_, rfl, List.mem_filter.mpr ⟨hmem, (inTile_iff _ _ _).mpr hin⟩⟩
  · rintro ⟨h1, h2⟩
    rw [inTile_iff] at h1 h2
    rw [h2x, h2z] at h2
    have hm := int_eq_zero_of_shift m tileSize.x c1.x q.x hx h1.1 h1.2.1 h2.1 h2.2.1
    have hn := int_eq_zero_of_shift n tileSize.z c1.z q.z hz h1.2.2.1 h1.2.2.2 h2.2.2.1 h2.2.2.2
    rcases hmn with h | h
    · exact h hm
    · exact h hn

/-- Witness of C18: tiles of size 32 by 32, two children one tile apart along
`x`, and the query point (40, 0, 40). -/
theorem tile_selection_at_most_one_witness :
    ¬ (inTile (⟨32, 32⟩ : TileSize ℝ) ⟨0, 0, 0⟩ ⟨40, 0, 40⟩ = true ∧
        inTile (⟨32, 32⟩ : TileSize ℝ) ⟨32, 0, 0⟩ ⟨40, 0, 40⟩ = true) :=
  (tile_selection_at_most_one
    (setTileSize (construct (⟨Real.pi, fun x y => x ^ y, Real.sin, Real.cos⟩ : JSMath ℝ) 800) ⟨32, 32⟩)
    ⟨[⟨⟨0, 0, 0⟩, 0⟩, ⟨⟨32, 0, 0⟩, 1⟩], fun _ _ => RayResult.hits []⟩
    ⟨32, 32⟩ ⟨40, 0, 40⟩ ⟨0, 0, 0⟩ ⟨32, 0, 0⟩ 1 0 rfl (by norm_num) (by norm_num)
    (by norm_num) (by norm_num) (Or.inl (by decide))).2

theorem onTouchMove_idem (M : JSMath α) (s : Controls α) (event : HammerEvent α) :
    onTouchMove M (onTouchMove M s event) event = onTouchMove M s event := by
  unfold onTouchMove
  by_cases hp : event.pointerType = "mouse"
  · simp only [if_pos hp]
  · by_cases hs : s.state ≠ STATES.MOVE
    · simp only [if_neg hp, if_pos hs]
    · simp only [if_neg hp, if_neg hs]
      by_cases hd : event.deltaX ≠ 0 ∨ event.deltaY ≠ 0
      · simp only [if_pos hd, if_neg hs]
      · simp only [if_neg hd, if_neg hs]

/-- C19, as amended: for an `onTouchMove` event with a non-mouse pointer handled
in mode MOVE whose `deltaX` and `deltaY` are not both zero, afterwards
`(targetPosition.x, targetPosition.z)` is
`touchStart - rotate((deltaX, deltaY), -direction) * distance / clientHeight * move.speed`;
an event with `deltaX = deltaY = 0` leaves `targetPosition` as it was; and
handling the same move event twice gives the same state as handling it once. -/
theorem onTouchMove_absolute (M : JSMath α) (s : Controls α) (event : HammerEvent α)
    (hp : event.pointerType ≠ "mouse") (hs : s.state = STATES.MOVE) :
    ((event.deltaX ≠ 0 ∨ event.deltaY ≠ 0) →
      (onTouchMove M s event).targetPosition =
        ⟨s.touchStart.x -
            ((Vector2.rotateAround M ⟨event.deltaX, event.deltaY⟩ Vector2_ZERO (-s.direction)).x *
              s.distance / s.clientHeight * s.settings.move.speed),
          s.targetPosition.y,
          s.touchStart.y -
            ((Vector2.rotateAround M ⟨event.deltaX, event.deltaY⟩ Vector2_ZERO (-s.direction)).y *
              s.distance / s.clientHeight * s.settings.move.speed)⟩) ∧
    (event.deltaX = 0 → event.deltaY = 0 →
      (onTouchMove M s event).targetPosition = s.targetPosition) ∧
    onTouchMove M (onTouchMove M s event) event = onTouchMove M s event := by
  refine ⟨fun hd => ?_, fun hx hy => ?_, onTouchMove_idem M s event⟩
  · unfold onTouchMove
    simp only [if_neg hp, if_neg (not_not.mpr hs), if_pos hd]
  · have hd : ¬ (event.deltaX ≠ 0 ∨ event.deltaY ≠ 0) := by
      rintro (h | h)
      · exact h hx
      · exact h hy
    unfold onTouchMove
    simp only [if_neg hp, if_neg (not_not.mpr hs), if_neg hd]

/-- Witness of C19 as amended: a one-finger drag by `(8, 0)` on a freshly
constructed controller. -/
theorem onTouchMove_absolute_witness :
    onTouchMove (⟨Real.pi, fun x y => x ^ y, Real.sin, Real.cos⟩ : JSMath ℝ)
        (onTouchMove (⟨Real.pi, fun x y => x ^ y, Real.sin, Real.cos⟩ : JSMath ℝ)
          (onTouchDown (construct (⟨Real.pi, fun x y => x ^ y, Real.sin, Real.cos⟩ : JSMath ℝ) 800)
            ⟨"touch", 0, 0, 0, 1, ⟨0, 0⟩⟩)
          ⟨"touch", 8, 0, 0, 1, ⟨0, 0⟩⟩)
        ⟨"touch", 8, 0, 0, 1, ⟨0, 0⟩⟩ =
      onTouchMove (⟨Real.pi, fun x y => x ^ y, Real.sin, Real.cos⟩ : JSMath ℝ)
        (onTouchDown (construct (⟨Real.pi, fun x y => x ^ y, Real.sin, Real.cos⟩ : JSMath ℝ) 800)
          ⟨"touch", 0, 0, 0, 1, ⟨0, 0⟩⟩)
        ⟨"touch", 8, 0, 0, 1, ⟨0, 0⟩⟩ :=
  (onTouchMove_absolute (⟨Real.pi, fun x y => x ^ y, Real.sin, Real.cos⟩ : JSMath ℝ)
    (onTouchDown (construct (⟨Real.pi, fun x y => x ^ y, Real.sin, Real.cos⟩ : JSMath ℝ) 800)
      ⟨"touch", 0, 0, 0, 1, ⟨0, 0⟩⟩)
    ⟨"touch", 8, 0, 0, 1, ⟨0, 0⟩⟩ (by decide) (by simp [onTouchDown])).2.2

/-- Counterexample to C19 as stated: on a freshly constructed controller
(`clientHeight = 800`, distance 5000, direction 0) a one-finger drag starts at
the target `(0, 0)` and moves by `(8, 0)`, which puts `targetPosition.x` to
`0 - 8 * 5000 / 800 * 1.75 = -87.5`; a following move event with
`deltaX = deltaY = 0` leaves it at -87.5, not at `touchStart.x - 0 = 0`. -/
theorem onTouchMove_zero_delta_keeps_target :
    (onTouchMove (⟨Real.pi, fun x y => x ^ y, Real.sin, Real.cos⟩ : JSMath ℝ)
        (onTouchMove (⟨Real.pi, fun x y => x ^ y, Real.sin, Real.cos⟩ : JSMath ℝ)
          (onTouchDown (construct (⟨Real.pi, fun x y => x ^ y, Real.sin, Real.cos⟩ : JSMath ℝ) 800)
            ⟨"touch", 0, 0, 0, 1, ⟨0, 0⟩⟩)
          ⟨"touch", 8, 0, 0, 1, ⟨0, 0⟩⟩)
        ⟨"touch", 0, 0, 0, 1, ⟨0, 0⟩⟩).targetPosition.x = -87.5 ∧
    (onTouchMove (⟨Real.pi, fun x y => x ^ y, Real.sin, Real.cos⟩ : JSMath ℝ)
        (onTouchMove (⟨Real.pi, fun x y => x ^ y, Real.sin, Real.cos⟩ : JSMath ℝ)
          (onTouchDown (construct (⟨Real.pi, fun x y => x ^ y, Real.sin, Real.cos⟩ : JSMath ℝ) 800)
            ⟨"touch", 0, 0, 0, 1, ⟨0, 0⟩⟩)
          ⟨"touch", 8, 0, 0, 1, ⟨0, 0⟩⟩)
        ⟨"touch", 0, 0, 0, 1, ⟨0, 0⟩⟩).touchStart.x -
      (Vector2.rotateAround (⟨Real.pi, fun x y => x ^ y, Real.sin, Real.cos⟩ : JSMath ℝ)
        ⟨0, 0⟩ Vector2_ZERO (-0)).x * 5000 / 800 * 1.75 = 0 := by
  constructor
  · simp [onTouchMove, onTouchDown, construct, resetPosition, defaultSettings,
      Vector2.rotateAround, Vector2_ZERO]
    norm_num
  · simp [onTouchMove, onTouchDown, construct, resetPosition, defaultSettings,
      Vector2.rotateAround, Vector2_ZERO]

/-- C20: in mode ORBIT, for a previous rotation `l = lastTouchRotation` and a
new rotation `r` with `|r - l| < 540`, `onTouchRotateMove` uses a step `delta`
that differs from `r - l` by an integer multiple of 360 and lies in
`[-180, 180]`, adds `delta * (PI / 180) * 1.4` to `targetDirection`, at most
`1.4 * PI` in magnitude, and sets `lastTouchRotation` to `r`; in any other mode
it leaves the state unchanged. -/
theorem onTouchRotateMove_normalises (M : JSMath α) (s : Controls α) (event : HammerEvent α)
    (hpi : 0 ≤ M.PI) :
    (s.state = STATES.ORBIT → |event.rotation - s.lastTouchRotation| < 540 →
      ∃ delta : α,
        (∃ k : ℤ, delta = event.rotation - s.lastTouchRotation + 360 * k) ∧
        -180 ≤ delta ∧ delta ≤ 180 ∧
        (onTouchRotateMove M s event).targetDirection =
          s.targetDirection + (delta * (M.PI / 180)) * 1.4 ∧
        |(delta * (M.PI / 180)) * 1.4| ≤ 1.4 * M.PI ∧
        (onTouchRotateMove M s event).lastTouchRotation = event.rotation) ∧
    (s.state ≠ STATES.ORBIT → onTouchRotateMove M s event = s) := by
  have hbound : ∀ delta : α, -180 ≤ delta → delta ≤ 180 →
      |(delta * (M.PI / 180)) * 1.4| ≤ 1.4 * M.PI := by
    intro delta h1 h2
    rw [abs_le]
    constructor <;> nlinarith
  constructor
  · intro hs hlt
    rw [abs_lt] at hlt
    unfold onTouchRotateMove
    rw [if_neg (not_not.mpr hs)]
    dsimp only
    by_cases h1 : event.rotation - s.lastTouchRotation > 180
    · have h2 : ¬ event.rotation - s.lastTouchRotation - 360 < -180 := by linarith
      rw [if_pos h1, if_neg h2]
      have hlo : -180 ≤ event.rotation - s.lastTouchRotation - 360 := by linarith
      have hhi : event.rotation - s.lastTouchRotation - 360 ≤ 180 := by linarith [hlt.2]
      exact ⟨_, ⟨-1, by push_cast; ring⟩, hlo, hhi, rfl, hbound _ hlo hhi, rfl⟩
    · rw [if_neg h1]
      by_cases h2 : event.rotation - s.lastTouchRotation < -180
      · rw [if_pos h2]
        have hlo : -180 ≤ event.rotation - s.lastTouchRotation + 360 := by linarith [hlt.1]
        have hhi : event.rotation - s.lastTouchRotation + 360 ≤ 180 := by linarith
        exact ⟨_, ⟨1, by push_cast; ring⟩, hlo, hhi, rfl, hbound _ hlo hhi, rfl⟩
      · rw [if_neg h2]
        have hlo : -180 ≤ event.rotation - s.lastTouchRotation := by linarith
        have hhi : event.rotation - s.lastTouchRotation ≤ 180 := by linarith
        exact ⟨_, ⟨0, by push_cast; ring⟩, hlo, hhi, rfl, hbound _ hlo hhi, rfl⟩
  · intro hs
    unfold onTouchRotateMove
    rw [if_pos hs]

/-- Witness of C20: with the real `Math.PI`, a rotate gesture on a freshly
constructed controller that starts at 10 degrees and moves to 350 degrees (the
step used is -20 degrees). -/
theorem onTouchRotateMove_normalises_witness :
    (onTouchRotateMove (⟨Real.pi, fun x y => x ^ y, Real.sin, Real.cos⟩ : JSMath ℝ)
      (onTouchRotateDown (construct (⟨Real.pi, fun x y => x ^ y, Real.sin, Real.cos⟩ : JSMath ℝ) 800)
        ⟨"touch", 0, 0, 10, 1, ⟨0, 0⟩⟩)
      ⟨"touch", 0, 0, 350, 1, ⟨0, 0⟩⟩).lastTouchRotation = 350 := by
  obtain ⟨_, _, _, _, _, _, h⟩ :=
    (onTouchRotateMove_normalises (⟨Real.pi, fun x y => x ^ y, Real.sin, Real.cos⟩ : JSMath ℝ)
      (onTouchRotateDown (construct (⟨Real.pi, fun x y => x ^ y, Real.sin, Real.cos⟩ : JSMath ℝ) 800)
        ⟨"touch", 0, 0, 10, 1, ⟨0, 0⟩⟩)
      ⟨"touch", 0, 0, 350, 1, ⟨0, 0⟩⟩ Real.pi_pos.le).1 rfl
      (by simp only [onTouchRotateDown]; norm_num [abs_lt])
  exact h

theorem update_moveDelta (M : JSMath α) (scene : HeightScene α) (s : Controls α) :
    (update M scene s).1.moveDelta = (updateMouseMoves M s).moveDelta := by
  rw [update_fst_eq]

theorem update_lastMouse (M : JSMath α) (scene : HeightScene α) (s : Controls α) :
    (update M scene s).1.lastMouse = (updateMouseMoves M s).lastMouse := by
  rw [update_fst_eq]

theorem update_mouse (M : JSMath α) (scene : HeightScene α) (s : Controls α) :
    (update M scene s).1.mouse = s.mouse := by
  rw [update_fst_eq, updateMouseMoves_eq]

theorem update_clientHeight (M : JSMath α) (scene : HeightScene α) (s : Controls α) :
    (update M scene s).1.clientHeight = s.clientHeight := by
  rw [update_fst_eq, updateMouseMoves_eq]

/-- C15, the code at a failing input: on a freshly constructed controller the
RIGHT key goes down and the left mouse button is pressed; the pointer does not
move.  The next `update()` (mode MOVE, no pointer delta) shifts the target by
nothing and leaves the key's 20 units in `moveDelta`; after the button is
released the following `update()` shifts `targetPosition.x` by
`40 * 4200 / 800 * 1.75 = 367.5`, twice the 20 units of one frame
(`20 * 4200 / 800 * 1.75 = 183.75`). -/
theorem held_key_accumulates_while_dragging :
    (update (⟨Real.pi, fun x y => x ^ y, Real.sin, Real.cos⟩ : JSMath ℝ)
      ⟨[], fun _ _ => RayResult.hits []⟩
      (onMouseDown
        (onKeyDown (construct (⟨Real.pi, fun x y => x ^ y, Real.sin, Real.cos⟩ : JSMath ℝ) 800)
          ⟨39⟩)
        ⟨0, 0, 0⟩)).1.targetPosition.x = 0 ∧
    (update (⟨Real.pi, fun x y => x ^ y, Real.sin, Real.cos⟩ : JSMath ℝ)
      ⟨[], fun _ _ => RayResult.hits []⟩
      (onMouseDown
        (onKeyDown (construct (⟨Real.pi, fun x y => x ^ y, Real.sin, Real.cos⟩ : JSMath ℝ) 800)
          ⟨39⟩)
        ⟨0, 0, 0⟩)).1.moveDelta.x = 20 ∧
    (update (⟨Real.pi, fun x y => x ^ y, Real.sin, Real.cos⟩ : JSMath ℝ)
      ⟨[], fun _ _ => RayResult.hits []⟩
      (onMouseUp
        (update (⟨Real.pi, fun x y => x ^ y, Real.sin, Real.cos⟩ : JSMath ℝ)
          ⟨[], fun _ _ => RayResult.hits []⟩
          (onMouseDown
            (onKeyDown (construct (⟨Real.pi, fun x y => x ^ y, Real.sin, Real.cos⟩ : JSMath ℝ) 800)
              ⟨39⟩)
            ⟨0, 0, 0⟩)).1
        ⟨0, 0, 0⟩)).1.targetPosition.x = 367.5 := by
  refine ⟨?_, ?_, ?_⟩
  · simp [update_targetPosition, updateMouseMoves, onMouseDown, onKeyDown, construct,
      resetPosition, KEYS.UP, KEYS.DOWN, KEYS.LEFT, KEYS.RIGHT, KEYS.MOVE, MOUSE.LEFT]
  · simp [update_moveDelta, updateMouseMoves, onMouseDown, onKeyDown, construct,
      resetPosition, KEYS.UP, KEYS.DOWN, KEYS.LEFT, KEYS.RIGHT, KEYS.MOVE, MOUSE.LEFT]
  · simp [update_targetPosition, update_moveDelta, update_state, update_keyStates,
      update_lastMouse, update_mouse, update_clientHeight, update_settings, update_distance,
      update_direction, update_targetDirection, updateMouseMoves, onMouseUp, onMouseDown,
      onKeyDown, construct, resetPosition, defaultSettings, Vector2.rotateAround, Vector2_ZERO,
      KEYS.UP, KEYS.DOWN, KEYS.LEFT, KEYS.RIGHT, KEYS.MOVE, KEYS.ORBIT, MOUSE.LEFT, MOUSE.RIGHT]
    norm_num

end Theorems

end BlueMap
